import Mathlib

/-!
Verification of the data-container and unit-conversion core of
`gnss_ins_sim/sim/sim_data.py`.

Modelling conventions (shallow embedding):

* Python floats are idealized as rationals (`ℚ`).  The float constant
  `math.pi` is embedded as the exact rational value of the IEEE-754 double
  closest to pi, so `D2R = math.pi/180` and `1.0/D2R` are exact rationals
  and float round-off disappears; "within floating-point tolerance"
  becomes exact equality.
* NumPy arrays are mutable heap objects.  A `Heap` maps addresses to array
  contents; a `PyObj` is either an immutable numeric scalar, a reference
  to an array, a dict (whose structure is copied by `dict.copy()`, so it
  is modelled as a value holding references), a plain Python list, or a
  string.  Numeric scalars are modelled like NumPy scalars: they support
  `.copy()`, have `ndim == 0`, and satisfy `isinstance(x, (int, float))`
  (NumPy float64 subclasses Python float).
* Fallible code returns `Except PyError`.  A raised exception aborts the
  call before any subsequent assignment, which the `Except` threading
  mirrors; statements of the source that print diagnostics before raising
  are modelled by the raise alone.
-/

/-- Exact rational value of the IEEE-754 double `math.pi`
(`884279719003555 * 2^-48`). -/
def piQ : ℚ := 884279719003555 / 281474976710656

/-- `D2R = math.pi/180` from the top of `sim_data.py`. -/
def D2R : ℚ := piQ / 180

/-- Modelled from the spec: the angle-wrap helper constant
`attitude.TWO_PI` (the `attitude` module is not part of the sources;
spec sections 4.2 and 6 say the wrap is modulo `2*pi`).  Doubling is exact
in floating point, so the rational model is `2 * piQ`. -/
def TWO_PI : ℚ := 2 * piQ

/-- Python / NumPy floor-mod for floats: `a % b = a - b * floor (a / b)`. -/
def qmod (a b : ℚ) : ℚ := a - b * (⌊a / b⌋ : ℚ)

/-- One element of the radian wraparound of `__plot_dict`/`__plot_array`:
`y = y % TWO_PI; if y > pi then y = y - TWO_PI`. -/
def wrapVal (d : ℚ) : ℚ :=
  let m := qmod d TWO_PI
  if m > piQ then m - TWO_PI else m

/-! ### Unit conversion scale (`unit_conversion_scale`) -/

/-- The per-column scale factor of `unit_conversion_scale`: the fixed
closed table of the if/elif chain, `0` for any other pairing. -/
def pairScale (su du : String) : ℚ :=
  if su = "deg" ∧ du = "rad" then D2R
  else if su = "deg/s" ∧ du = "rad/s" then D2R
  else if su = "rad" ∧ du = "deg" then 1 / D2R
  else if su = "rad/s" ∧ du = "deg/s" then 1 / D2R
  else 0

/-- The four pairings of the fixed conversion table. -/
def inTable (su du : String) : Prop :=
  (su = "deg" ∧ du = "rad") ∨ (su = "deg/s" ∧ du = "rad/s") ∨
  (su = "rad" ∧ du = "deg") ∨ (su = "rad/s" ∧ du = "deg/s")

instance (su du : String) : Decidable (inTable su du) := by
  unfold inTable; infer_instance

/-- Python exceptions that the modelled code can raise.  `danglingRef` is a
model artifact for dereferencing an address absent from the heap; it is
unreachable from well-formed states. -/
inductive PyError where
  | valueError (msg : String)
  | attrError (msg : String)
  | typeError (msg : String)
  | keyError
  | indexError
  | danglingRef
deriving DecidableEq

/-- Loop of `unit_conversion_scale`: `for i in range(len(dst_unit))`,
reading `src_unit[i]` (an `IndexError` when `src_unit` is shorter) and
`dst_unit[i]`. -/
def unit_conversion_scale_go : List String → List String → Except PyError (List ℚ)
  | _, [] => .ok []
  | [], _ :: _ => .error .indexError
  | su :: srest, du :: drest =>
    match unit_conversion_scale_go srest drest with
    | .error e => .error e
    | .ok rest => .ok (pairScale su du :: rest)

/-- `unit_conversion_scale(src_unit, dst_unit)`: a vector of
`len(dst_unit)` per-column scale factors. -/
def unit_conversion_scale (src_unit dst_unit : List String) : Except PyError (List ℚ) :=
  unit_conversion_scale_go src_unit dst_unit

/-! ### The heap of NumPy arrays -/

/-- Contents of one NumPy array: 1-D, 2-D (rectangular `n` rows), or an
array of any other dimensionality `shape.length ∉ {1, 2}` carrying its
shape and flattened elements. -/
inductive Content where
  | d1 (v : List ℚ)
  | d2 (rows : List (List ℚ))
  | dN (shape : List Nat) (flat : List ℚ)
deriving DecidableEq

/-- `ndim` of an array content. -/
def Content.ndim : Content → Nat
  | .d1 _ => 1
  | .d2 _ => 2
  | .dN shape _ => shape.length

/-- `shape[1]` of a 2-D content (rectangular, so the first row's length). -/
def numCols (rows : List (List ℚ)) : Nat := (rows.headD []).length

/-- Store mapping array addresses to contents, with an allocation counter. -/
structure Heap where
  mem : List (Nat × Content)
  next : Nat
deriving DecidableEq

def Heap.get (h : Heap) (a : Nat) : Option Content :=
  (h.mem.find? (fun p => p.1 == a)).map (fun p => p.2)

def Heap.set (h : Heap) (a : Nat) (c : Content) : Heap :=
  ⟨h.mem.map (fun p => if p.1 == a then (a, c) else p), h.next⟩

def Heap.alloc (h : Heap) (c : Content) : Heap × Nat :=
  (⟨(h.next, c) :: h.mem, h.next + 1⟩, h.next)

/-- A Python value as handled by `sim_data.py`: a numeric scalar, a NumPy
array reference, a dict keyed by small integers, a plain Python list, or a
string. -/
inductive PyObj where
  | num (v : ℚ)
  | arr (a : Nat)
  | dict (entries : List (Nat × PyObj))
  | pyList (elems : List ℚ)
  | pyStr (s : String)

/-- A resolved value: a scalar or the content of a referenced array. -/
inductive ResVal where
  | num (v : ℚ)
  | arr (c : Content)
deriving DecidableEq

/-- Read a scalar or array value out of the heap (dict/list/str resolve to
`none`; only used to observe scalar/array results). -/
def resolve (h : Heap) : PyObj → Option ResVal
  | .num v => some (.num v)
  | .arr a => (h.get a).map ResVal.arr
  | _ => none

/-! ### `convert_unit_ndarray_scalar` -/

/-- One column assignment `x[:, i] = x[:, i] * s` (a no-op on rows shorter
than `i + 1`, which cannot happen for rectangular arrays with `i`
below the column count). -/
def scaleCol (rows : List (List ℚ)) (i : Nat) (s : ℚ) : List (List ℚ) :=
  rows.map (fun row => row.set i (row.getD i 0 * s))

/-- The loop `for i in range(n): if scale[i] != 0.0: x[:, i] *= scale[i]`
of `convert_unit_ndarray_scalar`, applied for `i = 0, 1, ..., n - 1`. -/
def scaleLoop (rows : List (List ℚ)) (scale : List ℚ) : Nat → List (List ℚ)
  | 0 => rows
  | n + 1 =>
    let prev := scaleLoop rows scale n
    if scale.getD n 0 ≠ 0 then scaleCol prev n (scale.getD n 0) else prev

/-- `convert_unit_ndarray_scalar(x, scale)`.

* 2-D array: each column `i < min(len(scale), x.shape[1])` with a nonzero
  scale is multiplied in place (the heap cell is updated; the same
  reference is returned).
* 1-D array: `x = x * scale[0]` rebinds `x` to a new array when the scale
  is nonzero (`scale[0]` raises `IndexError` on an empty scale vector).
* Any other `ndim` falls through both branches and the array is returned
  untouched.
* Numeric scalar: multiplied by `scale[0]` unconditionally.
* Anything else reaches the `raise ValueError(... % x.ndim)` statement,
  whose message formatting reads the missing `ndim` attribute, so the call
  fails with `AttributeError`. -/
def convert_unit_ndarray_scalar (h : Heap) (x : PyObj) (scale : List ℚ) :
    Except PyError (Heap × PyObj) :=
  match x with
  | .arr a =>
    match h.get a with
    | some (.d2 rows) =>
      .ok (h.set a (.d2 (scaleLoop rows scale (min scale.length (numCols rows)))), .arr a)
    | some (.d1 v) =>
      match scale with
      | [] => .error .indexError
      | s0 :: _ =>
        if s0 ≠ 0 then
          let p := h.alloc (.d1 (v.map (fun e => e * s0)))
          .ok (p.1, .arr p.2)
        else .ok (h, .arr a)
    | some (.dN _ _) => .ok (h, .arr a)
    | none => .error .danglingRef
  | .num v =>
    match scale with
    | [] => .error .indexError
    | s0 :: _ => .ok (h, .num (v * s0))
  | .dict _ => .error (.attrError "dict object has no ndim")
  | .pyList _ => .error (.attrError "list object has no ndim")
  | .pyStr _ => .error (.attrError "str object has no ndim")

/-! ### `convert_unit` -/

/-- The loop `for i in x: x[i] = convert_unit_ndarray_scalar(x[i], scale)`
over the entries of the shallow dict copy. -/
def convertEntries (scale : List ℚ) :
    Heap → List (Nat × PyObj) → Except PyError (Heap × List (Nat × PyObj))
  | h, [] => .ok (h, [])
  | h, (k, v) :: rest =>
    match convert_unit_ndarray_scalar h v scale with
    | .error e => .error e
    | .ok (h1, v1) =>
      match convertEntries scale h1 rest with
      | .error e => .error e
      | .ok (h2, rest1) => .ok (h2, (k, v1) :: rest1)

/-- `convert_unit(data, src_unit, dst_unit)`.  Computes the scale vector,
takes `x = data.copy()` (a full copy for an array, a shallow copy for a
dict, so dict values still alias the caller's arrays; a string has no
`copy` attribute), then applies `convert_unit_ndarray_scalar` to `x` or to
every dict value. -/
def convert_unit (h : Heap) (data : PyObj) (src_unit dst_unit : List String) :
    Except PyError (Heap × PyObj) :=
  match unit_conversion_scale src_unit dst_unit with
  | .error e => .error e
  | .ok scale =>
    match data with
    | .dict entries =>
      match convertEntries scale h entries with
      | .error e => .error e
      | .ok (h1, entries1) => .ok (h1, .dict entries1)
    | .arr a =>
      match h.get a with
      | none => .error .danglingRef
      | some c =>
        let p := h.alloc c
        convert_unit_ndarray_scalar p.1 (.arr p.2) scale
    | .num v => convert_unit_ndarray_scalar h (.num v) scale
    | .pyList l => convert_unit_ndarray_scalar h (.pyList l) scale
    | .pyStr _ => .error (.attrError "str object has no copy")

/-! ### The `Sim_data` container -/

/-- The fields of a `Sim_data` object (its `self.data` payload lives in
the `data` field; arrays it references live in the heap). -/
structure SimData where
  name : String
  description : String
  units : List String
  output_units : List String
  plottable : Bool
  logx : Bool
  logy : Bool
  grid : String
  legend : Option (List String)
  data : PyObj

/-- `Sim_data.__init__`.  `units=None` becomes `[]`; `output_units=None`
aliases `units`; when both are given, the shorter list is padded with the
tail of the longer (`for i in range(len_out, len_in):
output_units.append(units[i])` appends exactly `units[len_out:]`, i.e.
`drop len_out`, and symmetrically).  `grid` normalizes to `'on'` unless it
lowercases to `'off'`.  The payload starts as the empty dict `{}`. -/
def simDataInit (name description : String)
    (units output_units : Option (List String))
    (plottable : Bool) (logx : Bool) (logy : Bool)
    (grid : String) (legend : Option (List String)) : SimData :=
  let units0 : List String := match units with
    | none => []
    | some us => us
  let p : List String × List String := match output_units with
    | none => (units0, units0)
    | some ous =>
      let len_in := units0.length
      let len_out := ous.length
      if len_in > len_out then (units0, ous ++ units0.drop len_out)
      else if len_in < len_out then (units0 ++ ous.drop len_in, ous)
      else (units0, ous)
  { name := name, description := description,
    units := p.1, output_units := p.2,
    plottable := plottable, logx := logx, logy := logy,
    grid := if grid.toLower = "off" then grid else "on",
    legend := legend, data := .dict [] }

/-- Python dict lookup `d[k]` (insertion-ordered association list). -/
def dictGet (entries : List (Nat × PyObj)) (k : Nat) : Option PyObj :=
  (entries.find? (fun p => p.1 == k)).map (fun p => p.2)

/-- Python dict store `d[k] = v`: overwrite in place if the key exists,
else append preserving insertion order. -/
def dictSet (entries : List (Nat × PyObj)) (k : Nat) (v : PyObj) :
    List (Nat × PyObj) :=
  if entries.any (fun p => p.1 == k) then
    entries.map (fun p => if p.1 == k then (k, v) else p)
  else entries ++ [(k, v)]

/-- `isinstance(x, dict)`. -/
def PyObj.isDict : PyObj → Bool
  | .dict _ => true
  | _ => false

/-- The storing tail of `add_data` (lines 116-121): `key=None` replaces the
payload wholesale; otherwise a non-dict payload is reset to `{}` first and
then `self.data[key] = data`. -/
def storeData (sd : SimData) (data : PyObj) (key : Option Nat) : SimData :=
  match key with
  | none => { sd with data := data }
  | some k =>
    match sd.data with
    | .dict entries => { sd with data := .dict (dictSet entries k data) }
    | _ => { sd with data := .dict (dictSet [] k data) }

/-- `Sim_data.add_data(data, key, units)`.  A supplied units list must have
the length of `self.units` (else `ValueError` before any store); if it
differs element-wise from `self.units` the data is converted first. -/
def add_data (sd : SimData) (data : PyObj) (key : Option Nat)
    (units : Option (List String)) (h : Heap) :
    Except PyError (Heap × SimData) :=
  match units with
  | none => .ok (h, storeData sd data key)
  | some us =>
    if us.length = sd.units.length then
      if us ≠ sd.units then
        match convert_unit h data us sd.units with
        | .error e => .error e
        | .ok (h1, data1) => .ok (h1, storeData sd data1 key)
      else .ok (h, storeData sd data key)
    else .error (.valueError "Units are of different lengths.")

/-- Read back what a write stored: the bare payload for `key=None`, the
dict entry for a keyed write. -/
def getStored (sd : SimData) (key : Option Nat) : Option PyObj :=
  match key with
  | none => some sd.data
  | some k =>
    match sd.data with
    | .dict entries => dictGet entries k
    | _ => none

/-! ### `save_to_file` -/

/-- The `ndim` attribute of a value (NumPy scalars have `ndim == 0`;
dicts, lists and strings lack the attribute). -/
def ndimOf (h : Heap) : PyObj → Except PyError Nat
  | .num _ => .ok 0
  | .arr a =>
    match h.get a with
    | some c => .ok c.ndim
    | none => .error .danglingRef
  | .dict _ => .error (.attrError "dict object has no ndim")
  | .pyList _ => .error (.attrError "list object has no ndim")
  | .pyStr _ => .error (.attrError "str object has no ndim")

/-- `x.shape[1]` of an array value (only reached when `ndim > 1`). -/
def shape1Of (h : Heap) : PyObj → Except PyError Nat
  | .arr a =>
    match h.get a with
    | some (.d2 rows) => .ok (numCols rows)
    | some (.dN shape _) => .ok (shape.getD 1 0)
    | some (.d1 _) => .error .indexError
    | none => .error .danglingRef
  | _ => .error (.attrError "object has no shape")

/-- Column count of `save_to_file`: `0` for scalars/1-D data, else
`shape[1]` sampled from the first dict entry or from the bare array. -/
def saveCols (sd : SimData) (h : Heap) : Except PyError Nat :=
  match sd.data with
  | .dict entries =>
    match entries with
    | [] => .ok 0
    | (_, v) :: _ =>
      match ndimOf h v with
      | .error e => .error e
      | .ok n => if n > 1 then shape1Of h v else .ok 0
  | .arr a =>
    match ndimOf h (.arr a) with
    | .error e => .error e
    | .ok n => if n > 1 then shape1Of h (.arr a) else .ok 0
  | _ => .ok 0

/-- The header line of `save_to_file`: per-column
`legend[i]` or `name_i`, suffixed with `' (' + output_units[i] + ')'` when
a unit exists, comma-joined with the trailing comma removed; for
`cols == 0` a single `name` field with an optional first-unit suffix. -/
def headerFor (sd : SimData) (cols : Nat) : String :=
  if cols > 0 then
    let cell : Nat → String := fun i =>
      let str_unit :=
        if i < sd.output_units.length then " (" ++ sd.output_units.getD i "" ++ ")" else ""
      match sd.legend with
      | some lg =>
        if cols = lg.length then lg.getD i "" ++ str_unit
        else sd.name ++ "_" ++ toString i ++ str_unit
      | none => sd.name ++ "_" ++ toString i ++ str_unit
    ((List.range cols).foldl (fun acc i => acc ++ cell i ++ ",") "").dropRight 1
  else
    sd.name ++
      (if sd.output_units.length > 0 then " (" ++ sd.output_units.getD 0 "" ++ ")" else "")

/-- One `np.savetxt` invocation: destination path, converted data, header. -/
structure SaveCall where
  fileName : String
  out : PyObj
  header : String

/-- The per-key loop of `save_to_file` over a dict payload. -/
def saveEntries (sd : SimData) (data_dir header_line : String) :
    Heap → List (Nat × PyObj) → Except PyError (Heap × List SaveCall)
  | h, [] => .ok (h, [])
  | h, (k, v) :: rest =>
    let file_name := data_dir ++ "//" ++ sd.name ++ "-" ++ toString k ++ ".csv"
    match convert_unit h v sd.units sd.output_units with
    | .error e => .error e
    | .ok (h1, v1) =>
      match saveEntries sd data_dir header_line h1 rest with
      | .error e => .error e
      | .ok (h2, rest1) => .ok (h2, ⟨file_name, v1, header_line⟩ :: rest1)

/-- `Sim_data.save_to_file(data_dir)`: build the header, then serialize
each dict entry to `data_dir + '//' + name + '-' + str(key) + '.csv'`, or
the bare payload to `data_dir + '//' + name + '.csv'`, converting from
`units` to `output_units` on the way out. -/
def save_to_file (sd : SimData) (h : Heap) (data_dir : String) :
    Except PyError (Heap × List SaveCall) :=
  match saveCols sd h with
  | .error e => .error e
  | .ok cols =>
    let header_line := headerFor sd cols
    match sd.data with
    | .dict entries => saveEntries sd data_dir header_line h entries
    | d =>
      let file_name := data_dir ++ "//" ++ sd.name ++ ".csv"
      match convert_unit h d sd.units sd.output_units with
      | .error e => .error e
      | .ok (h1, d1) => .ok (h1, [⟨file_name, d1, header_line⟩])

/-! ### The plot adapter -/

/-- NumPy subtraction `a - b` as used for `self.data - ref.data`:
elementwise on scalars and on arrays of identical shape, a new array being
allocated.  Broadcasting between differently shaped operands is not
modelled (the claims never exercise it); those cases and non-numeric
operands produce an error, which the caller's bare `except` turns into its
own `ValueError`. -/
def pySub (h : Heap) (a b : PyObj) : Except PyError (Heap × PyObj) :=
  match a, b with
  | .num v, .num w => .ok (h, .num (v - w))
  | .arr x, .arr y =>
    match h.get x, h.get y with
    | some (.d1 v), some (.d1 w) =>
      if v.length = w.length then
        let p := h.alloc (.d1 (List.zipWith (fun u t => u - t) v w))
        .ok (p.1, .arr p.2)
      else .error (.valueError "operands could not be broadcast together")
    | some (.d2 r), some (.d2 s) =>
      if r.length = s.length ∧ r.map List.length = s.map List.length then
        let p := h.alloc (.d2 (List.zipWith (fun u t => List.zipWith (fun c d => c - d) u t) r s))
        .ok (p.1, .arr p.2)
      else .error (.valueError "operands could not be broadcast together")
    | some _, some _ => .error (.valueError "operands could not be broadcast together")
    | _, _ => .error .danglingRef
  | _, _ => .error (.typeError "unsupported operand types")

/-- The radian wraparound `y = y % TWO_PI; y[y > pi] -= TWO_PI` applied to
the freshly allocated difference: elementwise on arrays (a new array is
produced by the modulo).  On a scalar the boolean-mask indexing
`y_data[idx]` is a `TypeError`; the caller's bare `except` catches it. -/
def wrapObj (h : Heap) (y : PyObj) : Except PyError (Heap × PyObj) :=
  match y with
  | .arr a =>
    match h.get a with
    | some (.d1 v) =>
      let p := h.alloc (.d1 (v.map wrapVal))
      .ok (p.1, .arr p.2)
    | some (.d2 rows) =>
      let p := h.alloc (.d2 (rows.map (fun r => r.map wrapVal)))
      .ok (p.1, .arr p.2)
    | some (.dN shape flat) =>
      let p := h.alloc (.dN shape (flat.map wrapVal))
      .ok (p.1, .arr p.2)
    | none => .error .danglingRef
  | _ => .error (.typeError "object does not support item assignment")

/-- The `try`-guarded error-plot block shared by `__plot_dict` and
`__plot_array`: `y_data = y_data - ref_data`, then, exactly when
`self.units == ['rad', 'rad', 'rad']`, the wraparound into `(-pi, pi]`;
any exception inside becomes
`ValueError('Check input data ref and self.data dimension.')`. -/
def refAdjust (h : Heap) (yObj refData : PyObj) (units : List String) :
    Except PyError (Heap × PyObj) :=
  match pySub h yObj refData with
  | .error _ => .error (.valueError "Check input data ref and self.data dimension.")
  | .ok (h1, yd) =>
    if units = ["rad", "rad", "rad"] then
      match wrapObj h1 yd with
      | .error _ => .error (.valueError "Check input data ref and self.data dimension.")
      | .ok (h2, yw) => .ok (h2, yw)
    else .ok (h1, yd)

/-- One call handed to the drawing-surface collaborator:
`kind` 0 for a 2-D line figure, 1 for a 3-D trajectory, 2 for the
three-projection figure. -/
structure FigCall where
  kind : Nat
  title : String
  x : Option PyObj
  y : PyObj

/-- `y.shape[0]` (a NumPy scalar has shape `()`, so indexing it is an
`IndexError`). -/
def shape0Of (h : Heap) : PyObj → Except PyError Nat
  | .arr a =>
    match h.get a with
    | some (.d1 v) => .ok v.length
    | some (.d2 rows) => .ok rows.length
    | some (.dN shape _) => .ok (shape.getD 0 0)
    | none => .error .danglingRef
  | .num _ => .error .indexError
  | _ => .error (.attrError "object has no shape")

/-- `plot_in_one_figure(x, y, ...)`: a default `x = np.array(range(
y.shape[0]))` is materialized when no x data is given, then the guarded
body accepts `y.ndim` of 1 or 2 and anything else (including exceptions
from reading `ndim`) becomes `ValueError('Check input data y.')`. -/
def plot_in_one_figure (h : Heap) (x : Option PyObj) (y : PyObj)
    (title : String) : Except PyError (Heap × FigCall) :=
  match (match x with
         | none =>
           match shape0Of h y with
           | .error e => .error e
           | .ok n =>
             let p := h.alloc (.d1 ((List.range n).map (fun k => (k : ℚ))))
             .ok (p.1, some (PyObj.arr p.2))
         | some xv => .ok (h, some xv) : Except PyError (Heap × Option PyObj)) with
  | .error e => .error e
  | .ok (h1, x1) =>
    match ndimOf h1 y with
    | .ok 1 => .ok (h1, ⟨0, title, x1, y⟩)
    | .ok 2 => .ok (h1, ⟨0, title, x1, y⟩)
    | _ => .error (.valueError "Check input data y.")

/-- `plot3d_in_one_figure(y, ...)`: requires a 2-D `y` with exactly three
columns; everything else becomes `ValueError('Check input data y.')`. -/
def plot3d_in_one_figure (h : Heap) (y : PyObj) (title : String) :
    Except PyError (Heap × FigCall) :=
  match ndimOf h y with
  | .ok 2 =>
    match shape1Of h y with
    | .ok 3 => .ok (h, ⟨1, title, none, y⟩)
    | _ => .error (.valueError "Check input data y.")
  | _ => .error (.valueError "Check input data y.")

/-- `plot3d_proj_in_one_figure(y, ...)`: same 3-column requirement. -/
def plot3d_proj_in_one_figure (h : Heap) (y : PyObj) (title : String) :
    Except PyError (Heap × FigCall) :=
  match ndimOf h y with
  | .ok 2 =>
    match shape1Of h y with
    | .ok 3 => .ok (h, ⟨2, title, none, y⟩)
    | _ => .error (.valueError "Check input data y.")
  | _ => .error (.valueError "Check input data y.")

/-- Mode dispatch shared by `__plot_dict` and `__plot_array`.  In the 2-D
branch the call arguments evaluate `x.output_units[0]` eagerly for the x
label, an `IndexError` when `x` has no output units. -/
def dispatchPlot (h : Heap) (x_data : Option PyObj) (yObj : PyObj)
    (x : SimData) (title : String) (plot3d : Nat) :
    Except PyError (Heap × FigCall) :=
  if plot3d = 1 then plot3d_in_one_figure h yObj title
  else if plot3d = 2 then plot3d_proj_in_one_figure h yObj title
  else
    match x.output_units with
    | [] => .error .indexError
    | _ :: _ => plot_in_one_figure h x_data yObj title

/-- The body of `__plot_dict`'s loop for one key `i`: pick
`y_data = self.data[i]`, resolve the x data (the matching entry of a keyed
x payload, `None` for an empty dict, the bare payload otherwise),
subtract the reference (keyed or bare) with radian wraparound, convert
from `units` to `output_units`, and dispatch with title `name_i`. -/
def plotDictStep (sd : SimData) (x : SimData) (ref : Option SimData)
    (plot3d : Nat) (h : Heap) (i : Nat) : Except PyError (Heap × FigCall) :=
  match sd.data with
  | .dict es =>
    match dictGet es i with
    | none => .error .keyError
    | some y0 =>
      match (match x.data with
             | .dict xes =>
               if xes.isEmpty then .ok none
               else
                 match dictGet xes i with
                 | none => .error .keyError
                 | some xv => .ok (some xv)
             | xother => .ok (some xother) : Except PyError (Option PyObj)) with
      | .error e => .error e
      | .ok x_data =>
        match (match ref with
               | none => .ok (h, y0)
               | some rf =>
                 match (match rf.data with
                        | .dict res =>
                          match dictGet res i with
                          | none => .error PyError.keyError
                          | some rv => .ok rv
                        | rother => .ok rother : Except PyError PyObj) with
                 | .error e => .error e
                 | .ok ref_data => refAdjust h y0 ref_data sd.units :
               Except PyError (Heap × PyObj)) with
        | .error e => .error e
        | .ok (h1, y1) =>
          match convert_unit h1 y1 sd.units sd.output_units with
          | .error e => .error e
          | .ok (h2, y2) =>
            dispatchPlot h2 x_data y2 x (sd.name ++ "_" ++ toString i) plot3d
  | _ => .error (.typeError "payload is not a dict")

/-- The `for i in key:` loop of `__plot_dict`. -/
def plotDictLoop (sd : SimData) (x : SimData) (ref : Option SimData)
    (plot3d : Nat) : Heap → List Nat → Except PyError (Heap × List FigCall)
  | h, [] => .ok (h, [])
  | h, i :: rest =>
    match plotDictStep sd x ref plot3d h i with
    | .error e => .error e
    | .ok (h1, c) =>
      match plotDictLoop sd x ref plot3d h1 rest with
      | .error e => .error e
      | .ok (h2, cs) => .ok (h2, c :: cs)

/-- The keys of a dict payload in insertion order. -/
def dictKeysOf : PyObj → List Nat
  | .dict es => es.map (fun p => p.1)
  | _ => []

/-- `Sim_data.__plot_dict(x, key, ref, plot3d)`: only the empty-list
sentinel `key == []` is replaced by all stored keys; the default `None`
then hits `for i in None`, a `TypeError`. -/
def plot_dict (sd : SimData) (h : Heap) (x : SimData)
    (key : Option (List Nat)) (ref : Option SimData) (plot3d : Nat) :
    Except PyError (Heap × List FigCall) :=
  let key1 := if key = some [] then some (dictKeysOf sd.data) else key
  match key1 with
  | none => .error (.typeError "NoneType object is not iterable")
  | some ks => plotDictLoop sd x ref plot3d h ks

/-- The x-axis resolution of `__plot_array`: `None` for an empty keyed x
payload, an arbitrary (first) entry of a non-empty keyed payload, the bare
payload otherwise. -/
def resolveX (x : SimData) : Except PyError (Option PyObj) :=
  match x.data with
  | .dict xes =>
    if xes.isEmpty then .ok none
    else
      match xes with
      | [] => .ok none
      | (_, xv) :: _ => .ok (some xv)
  | xother => .ok (some xother)

/-- `Sim_data.__plot_array(x, ref, plot3d)`: the reference is subtracted
with radian wraparound, units are converted, and the single figure is
titled `name`. -/
def plot_array (sd : SimData) (h : Heap) (x : SimData)
    (ref : Option SimData) (plot3d : Nat) : Except PyError (Heap × FigCall) :=
  match resolveX x with
  | .error e => .error e
  | .ok x_data =>
    match (match ref with
           | none => .ok (h, sd.data)
           | some rf => refAdjust h sd.data rf.data sd.units :
           Except PyError (Heap × PyObj)) with
    | .error e => .error e
    | .ok (h1, y1) =>
      match convert_unit h1 y1 sd.units sd.output_units with
      | .error e => .error e
      | .ok (h2, y2) => dispatchPlot h2 x_data y2 x sd.name plot3d

/-- `Sim_data.plot(x, key, ref, plot3d)`: a silent no-op when not
plottable, else dispatch on whether the payload is a dict (the `key`
argument is only used in the dict branch). -/
def plot (sd : SimData) (h : Heap) (x : SimData) (key : Option (List Nat))
    (ref : Option SimData) (plot3d : Nat) :
    Except PyError (Heap × List FigCall) :=
  if sd.plottable then
    match sd.data with
    | .dict _ => plot_dict sd h x key ref plot3d
    | _ =>
      match plot_array sd h x ref plot3d with
      | .error e => .error e
      | .ok (h1, c) => .ok (h1, [c])
  else .ok (h, [])

/-! ### Arithmetic facts about the embedded float constants -/

theorem piQ_pos : 0 < piQ := by norm_num [piQ]

theorem D2R_ne_zero : D2R ≠ 0 := by norm_num [D2R, piQ]

theorem D2R_mul_inv : D2R * (1 / D2R) = 1 := by
  rw [mul_one_div, div_self D2R_ne_zero]

theorem inv_mul_D2R : (1 / D2R) * D2R = 1 := by
  rw [one_div, inv_mul_cancel₀ D2R_ne_zero]

theorem TWO_PI_pos : 0 < TWO_PI := by norm_num [TWO_PI, piQ]

/-- The floor-mod lies in `[0, b)` for a positive modulus. -/
theorem qmod_bounds (a b : ℚ) (hb : 0 < b) : 0 ≤ qmod a b ∧ qmod a b < b := by
  unfold qmod
  constructor
  · have h := Int.floor_le (a / b)
    have := (mul_le_mul_left hb).mpr h
    rw [mul_div_cancel₀ a (ne_of_gt hb)] at this
    linarith
  · have h := Int.lt_floor_add_one (a / b)
    have := (mul_lt_mul_left hb).mpr h
    rw [mul_div_cancel₀ a (ne_of_gt hb)] at this
    linarith

/-- The radian wraparound lands in `(-pi, pi]`. -/
theorem wrapVal_bounds (d : ℚ) : -piQ < wrapVal d ∧ wrapVal d ≤ piQ := by
  obtain ⟨h0, h1⟩ := qmod_bounds d TWO_PI TWO_PI_pos
  have hpi : TWO_PI = 2 * piQ := rfl
  have hp := piQ_pos
  have hw : wrapVal d =
      if qmod d TWO_PI > piQ then qmod d TWO_PI - TWO_PI else qmod d TWO_PI := rfl
  rw [hw]
  split_ifs with hm
  · constructor <;> linarith
  · constructor <;> linarith

/-! ### Facts about the conversion table -/

/-- A pairing in the fixed table has a nonzero scale whose product with the
reverse pairing's scale is exactly `1`. -/
theorem invD2R_ne_zero : (1 : ℚ) / D2R ≠ 0 := by
  rw [one_div]; exact inv_ne_zero D2R_ne_zero

theorem pairScale_table (su du : String) (h : inTable su du) :
    pairScale su du ≠ 0 ∧ pairScale su du * pairScale du su = 1 := by
  rcases h with ⟨h1, h2⟩ | ⟨h1, h2⟩ | ⟨h1, h2⟩ | ⟨h1, h2⟩ <;> subst h1 <;> subst h2
  · rw [show pairScale "deg" "rad" = D2R from rfl,
      show pairScale "rad" "deg" = 1 / D2R from rfl]
    exact ⟨D2R_ne_zero, D2R_mul_inv⟩
  · rw [show pairScale "deg/s" "rad/s" = D2R from rfl,
      show pairScale "rad/s" "deg/s" = 1 / D2R from rfl]
    exact ⟨D2R_ne_zero, D2R_mul_inv⟩
  · rw [show pairScale "rad" "deg" = 1 / D2R from rfl,
      show pairScale "deg" "rad" = D2R from rfl]
    exact ⟨invD2R_ne_zero, inv_mul_D2R⟩
  · rw [show pairScale "rad/s" "deg/s" = 1 / D2R from rfl,
      show pairScale "deg/s" "rad/s" = D2R from rfl]
    exact ⟨invD2R_ne_zero, inv_mul_D2R⟩

/-- `unit_conversion_scale` succeeds when the source list is at least as
long as the destination list, and is then the elementwise table scale. -/
theorem unit_conversion_scale_ok :
    ∀ (src dst : List String), dst.length ≤ src.length →
      unit_conversion_scale src dst = .ok (List.zipWith pairScale src dst)
  | _, [], _ => by
    simp [unit_conversion_scale, unit_conversion_scale_go]
  | [], _ :: _, h => by simp at h
  | su :: srest, du :: drest, h => by
    have ih := unit_conversion_scale_ok srest drest (by simpa using h)
    simp only [unit_conversion_scale] at ih ⊢
    simp [unit_conversion_scale_go, ih]

/-! ### Heap lemmas -/

theorem List.find?_set_entry (l : List (Nat × Content)) (a : Nat) (c : Content)
    (hs : (l.find? (fun p => p.1 == a)).isSome = true) :
    ((l.map (fun p => if p.1 == a then (a, c) else p)).find?
      (fun p => p.1 == a)).map (fun p => p.2) = some c := by
  induction l with
  | nil => simp at hs
  | cons p l ih =>
    by_cases hpa : p.1 = a
    · simp [List.find?, hpa]
    · have hpb : (p.1 == a) = false := by simpa using hpa
      simp only [List.find?_cons, hpb] at hs
      simp only [List.map_cons, hpb, if_neg, List.find?_cons, hpb]
      simpa [hpb] using ih hs

theorem Heap.get_alloc (h : Heap) (c : Content) :
    (h.alloc c).1.get (h.alloc c).2 = some c := by
  simp [Heap.alloc, Heap.get, List.find?]

theorem Heap.get_set_of_get (h : Heap) (a : Nat) (c c' : Content)
    (hg : h.get a = some c') : (h.set a c).get a = some c := by
  apply List.find?_set_entry
  unfold Heap.get at hg
  rcases hfind : h.mem.find? (fun p => p.1 == a) with _ | p
  · rw [hfind] at hg; simp at hg
  · simp [hfind]

/-! ### Characterizing the column-scaling loop -/

/-- Proof helper: the effect of `scaleLoop` on a single row. -/
def rowLoop (row scale : List ℚ) : Nat → List ℚ
  | 0 => row
  | n + 1 =>
    let prev := rowLoop row scale n
    if scale.getD n 0 ≠ 0 then prev.set n (prev.getD n 0 * scale.getD n 0) else prev
theorem scaleLoop_eq_map (rows : List (List ℚ)) (scale : List ℚ) (n : Nat) :
    scaleLoop rows scale n = rows.map (fun r => rowLoop r scale n) := by
  induction n with
  | zero => simp [scaleLoop, rowLoop]
  | succ n ih =>
    simp only [scaleLoop, rowLoop, ih, scaleCol, List.map_map]
    split_ifs with hs
    · rfl
    · rfl

theorem rowLoop_length (row scale : List ℚ) (n : Nat) :
    (rowLoop row scale n).length = row.length := by
  induction n with
  | zero => rfl
  | succ n ih =>
    simp only [rowLoop]
    split_ifs with hs
    · simp [List.length_set, ih]
    · exact ih

theorem rowLoop_getD (row scale : List ℚ) (n j : Nat) :
    (rowLoop row scale n).getD j 0 =
      if j < n ∧ scale.getD j 0 ≠ 0 then row.getD j 0 * scale.getD j 0
      else row.getD j 0 := by
  induction n with
  | zero => simp [rowLoop]
  | succ n ih =>
    by_cases hs : scale.getD n 0 ≠ 0
    · have hrw : rowLoop row scale (n + 1) =
          (rowLoop row scale n).set n
            ((rowLoop row scale n).getD n 0 * scale.getD n 0) := by
        simp only [rowLoop]
        rw [if_pos hs]
      rw [hrw]
      by_cases hj : j = n
      · subst hj
        rw [if_pos ⟨Nat.lt_succ_self j, hs⟩]
        by_cases hlen : j < (rowLoop row scale j).length
        · rw [show ((rowLoop row scale j).set j
              ((rowLoop row scale j).getD j 0 * scale.getD j 0)).getD j 0 =
              (rowLoop row scale j).getD j 0 * scale.getD j 0 by
            simp [List.getD_eq_getElem?_getD, List.getElem?_set_self', hlen]]
          rw [ih, if_neg (by simp [lt_irrefl])]
        · push_neg at hlen
          rw [List.set_eq_of_length_le hlen, ih, if_neg (by simp [lt_irrefl])]
          have hrl : row.length ≤ j := by rwa [rowLoop_length] at hlen
          rw [List.getD_eq_default _ _ hrl]
          ring
      · rw [show ((rowLoop row scale n).set n
            ((rowLoop row scale n).getD n 0 * scale.getD n 0)).getD j 0 =
            (rowLoop row scale n).getD j 0 by
          simp [List.getD_eq_getElem?_getD, List.getElem?_set_ne (Ne.symm hj)]]
        rw [ih]
        have heq : (j < n ∧ scale.getD j 0 ≠ 0) ↔ (j < n + 1 ∧ scale.getD j 0 ≠ 0) := by
          constructor
          · rintro ⟨h1, h2⟩; exact ⟨Nat.lt_succ_of_lt h1, h2⟩
          · rintro ⟨h1, h2⟩; exact ⟨by omega, h2⟩
        rw [if_congr heq rfl rfl]
    · push_neg at hs
      have hrw : rowLoop row scale (n + 1) = rowLoop row scale n := by
        simp only [rowLoop]
        rw [if_neg (not_not_intro hs)]
      rw [hrw, ih]
      have heq : (j < n ∧ scale.getD j 0 ≠ 0) ↔ (j < n + 1 ∧ scale.getD j 0 ≠ 0) := by
        constructor
        · rintro ⟨h1, h2⟩; exact ⟨Nat.lt_succ_of_lt h1, h2⟩
        · rintro ⟨h1, h2⟩
          refine ⟨?_, h2⟩
          rcases Nat.lt_succ_iff_lt_or_eq.mp h1 with h | h
          · exact h
          · exact absurd (h ▸ hs) h2
      rw [if_congr heq rfl rfl]

theorem rowLoop_roundtrip (row s1 s2 : List ℚ) (n : Nat)
    (hs : ∀ j, j < n → s1.getD j 0 ≠ 0 ∧ s1.getD j 0 * s2.getD j 0 = 1) :
    rowLoop (rowLoop row s1 n) s2 n = row := by
  apply List.ext_getElem
  · rw [rowLoop_length, rowLoop_length]
  · intro i h1 h2
    have hlen : (rowLoop (rowLoop row s1 n) s2 n).length = row.length := by
      rw [rowLoop_length, rowLoop_length]
    rw [← List.getD_eq_getElem _ 0 h1, ← List.getD_eq_getElem _ 0 h2]
    rw [rowLoop_getD, rowLoop_getD]
    by_cases hi : i < n
    · obtain ⟨hne, hprod⟩ := hs i hi
      have hs2 : s2.getD i 0 ≠ 0 := by
        intro h0
        rw [h0, mul_zero] at hprod
        exact zero_ne_one hprod
      rw [if_pos ⟨hi, hs2⟩, if_pos ⟨hi, hne⟩, mul_assoc, hprod, mul_one]
    · rw [if_neg (by tauto), if_neg (by tauto)]

theorem scaleLoop_roundtrip (rows : List (List ℚ)) (s1 s2 : List ℚ) (n : Nat)
    (hs : ∀ j, j < n → s1.getD j 0 ≠ 0 ∧ s1.getD j 0 * s2.getD j 0 = 1) :
    scaleLoop (scaleLoop rows s1 n) s2 n = rows := by
  rw [scaleLoop_eq_map, scaleLoop_eq_map, List.map_map]
  have : ∀ r ∈ rows, ((fun r => rowLoop r s2 n) ∘ fun r => rowLoop r s1 n) r = id r :=
    fun r _ => rowLoop_roundtrip r s1 s2 n hs
  rw [List.map_congr_left this, List.map_id]

theorem scaleLoop_zero (rows : List (List ℚ)) (scale : List ℚ) (n : Nat)
    (hz : ∀ j, j < n → scale.getD j 0 = 0) : scaleLoop rows scale n = rows := by
  induction n with
  | zero => rfl
  | succ n ih =>
    have hrw : scaleLoop rows scale (n + 1) = scaleLoop rows scale n := by
      simp only [scaleLoop]
      rw [if_neg (not_not_intro (hz n (Nat.lt_succ_self n)))]
    rw [hrw]
    exact ih (fun j hj => hz j (Nat.lt_succ_of_lt hj))

theorem length_scaleLoop (rows : List (List ℚ)) (scale : List ℚ) (n : Nat) :
    (scaleLoop rows scale n).length = rows.length := by
  rw [scaleLoop_eq_map, List.length_map]

theorem numCols_scaleLoop (rows : List (List ℚ)) (scale : List ℚ) (n : Nat) :
    numCols (scaleLoop rows scale n) = numCols rows := by
  rw [scaleLoop_eq_map]
  cases rows with
  | nil => rfl
  | cons r t => simp [numCols, rowLoop_length]

/-- The scale vector of a table conversion, elementwise. -/
theorem zipWith_pairScale_getD (A B : List String) (j : Nat) (hj : j < B.length)
    (hlen : B.length ≤ A.length) :
    (List.zipWith pairScale A B).getD j 0 = pairScale (A.getD j "") (B.getD j "") := by
  have hjA : j < A.length := lt_of_lt_of_le hj hlen
  have hz : j < (List.zipWith pairScale A B).length := by
    rw [List.length_zipWith]; omega
  rw [List.getD_eq_getElem _ 0 hz, List.getElem_zipWith,
    List.getD_eq_getElem _ _ hjA, List.getD_eq_getElem _ _ hj]

/-! ### Construction padding -/

theorem simDataInit_units_spec (nm ds : String) (u ou : List String)
    (pt lx ly : Bool) (g : String) (lg : Option (List String)) :
    (simDataInit nm ds (some u) (some ou) pt lx ly g lg).units = u ++ ou.drop u.length ∧
    (simDataInit nm ds (some u) (some ou) pt lx ly g lg).output_units =
      ou ++ u.drop ou.length := by
  unfold simDataInit
  dsimp only
  rcases Nat.lt_trichotomy u.length ou.length with hlt | heq | hgt
  · have h1 : ¬ (u.length > ou.length) := by omega
    rw [if_neg h1, if_pos hlt]
    refine ⟨rfl, ?_⟩
    rw [List.drop_eq_nil_of_le (le_of_lt hlt), List.append_nil]
  · have h1 : ¬ (u.length > ou.length) := by omega
    have h2 : ¬ (u.length < ou.length) := by omega
    rw [if_neg h1, if_neg h2]
    constructor
    · rw [List.drop_eq_nil_of_le (le_of_eq heq.symm), List.append_nil]
    · rw [List.drop_eq_nil_of_le (le_of_eq heq), List.append_nil]
  · rw [if_pos hgt]
    refine ⟨?_, rfl⟩
    rw [List.drop_eq_nil_of_le (le_of_lt hgt), List.append_nil]

/-! ### Dict update lemmas -/

theorem dictSet_cons_ne (p : Nat × PyObj) (t : List (Nat × PyObj)) (k : Nat)
    (v : PyObj) (hp : p.1 ≠ k) : dictSet (p :: t) k v = p :: dictSet t k v := by
  have hb : (p.1 == k) = false := by simpa using hp
  unfold dictSet
  simp only [List.any_cons, hb, Bool.false_or]
  by_cases ha : t.any (fun q => q.1 == k)
  · rw [if_pos ha, if_pos ha, List.map_cons, hb]
    rfl
  · rw [if_neg ha, if_neg ha]
    rfl

theorem dictGet_dictSet_self (es : List (Nat × PyObj)) (k : Nat) (v : PyObj) :
    dictGet (dictSet es k v) k = some v := by
  induction es with
  | nil => simp [dictSet, dictGet, List.find?]
  | cons p t ih =>
    by_cases hp : p.1 = k
    · have hb : (p.1 == k) = true := by simpa using hp
      unfold dictSet
      simp only [List.any_cons, hb, Bool.true_or, if_pos]
      simp [dictGet, List.find?, hb]
    · rw [dictSet_cons_ne p t k v hp]
      have hb : (p.1 == k) = false := by simpa using hp
      simp only [dictGet, List.find?, hb]
      exact ih

theorem find?_map_setEntry (t : List (Nat × PyObj)) (k k' : Nat) (v : PyObj)
    (hne : k' ≠ k) :
    ((t.map (fun p => if p.1 == k then (k, v) else p)).find? (fun p => p.1 == k')) =
      t.find? (fun p => p.1 == k') := by
  induction t with
  | nil => rfl
  | cons p t ih =>
    by_cases hp : p.1 = k
    · have hb : (p.1 == k) = true := by simpa using hp
      have hk' : (k == k') = false := by simpa using (Ne.symm hne)
      have hp' : (p.1 == k') = false := by
        simpa using (by rw [hp]; exact Ne.symm hne : p.1 ≠ k')
      simp only [List.map_cons, hb, if_pos, List.find?_cons, hk', hp']
      exact ih
    · have hb : (p.1 == k) = false := by simpa using hp
      simp only [List.map_cons, hb, Bool.false_eq_true, if_false, List.find?_cons]
      cases hpk : (p.1 == k') with
      | true => rfl
      | false => exact ih

theorem dictGet_dictSet_ne (es : List (Nat × PyObj)) (k k' : Nat) (v : PyObj)
    (hne : k' ≠ k) : dictGet (dictSet es k v) k' = dictGet es k' := by
  unfold dictSet dictGet
  by_cases ha : es.any (fun q => q.1 == k)
  · rw [if_pos ha, find?_map_setEntry es k k' v hne]
  · rw [if_neg ha, List.find?_append]
    have : ([(k, v)].find? (fun p => p.1 == k')) = none := by
      have hk' : (k == k') = false := by simpa using (Ne.symm hne)
      simp [List.find?, hk']
    rw [this]
    cases es.find? (fun p => p.1 == k') <;> rfl

/-! ### Error classification of the conversion engine -/

theorem ucs_go_error_kind : ∀ (src dst : List String) (e : PyError),
    unit_conversion_scale_go src dst = .error e → e = .indexError
  | _, [], _, he => by simp [unit_conversion_scale_go] at he
  | [], _ :: _, e, he => by
    simp only [unit_conversion_scale_go] at he
    injection he with h
    exact h.symm
  | su :: srest, du :: drest, e, he => by
    simp only [unit_conversion_scale_go] at he
    cases hr : unit_conversion_scale_go srest drest with
    | error e1 =>
      rw [hr] at he
      injection he with h
      exact h ▸ ucs_go_error_kind srest drest e1 hr
    | ok l => rw [hr] at he; simp at he

theorem cucs_error_kind (h : Heap) (x : PyObj) (scale : List ℚ) (e : PyError)
    (he : convert_unit_ndarray_scalar h x scale = .error e) :
    e = .indexError ∨ e = .danglingRef ∨ ∃ m, e = .attrError m := by
  unfold convert_unit_ndarray_scalar at he
  cases x with
  | num v =>
    dsimp only at he
    cases scale with
    | nil => injection he with h1; exact Or.inl h1.symm
    | cons s0 t => simp at he
  | arr a =>
    dsimp only at he
    cases hg : h.get a with
    | none => rw [hg] at he; injection he with h1; exact Or.inr (Or.inl h1.symm)
    | some c =>
      rw [hg] at he
      cases c with
      | d2 rows => simp at he
      | d1 v =>
        cases scale with
        | nil => injection he with h1; exact Or.inl h1.symm
        | cons s0 t =>
          dsimp only at he
          split at he <;> simp at he
      | dN shape flat => simp at he
  | dict es =>
    dsimp only at he
    injection he with h1
    exact Or.inr (Or.inr ⟨_, h1.symm⟩)
  | pyList l =>
    dsimp only at he
    injection he with h1
    exact Or.inr (Or.inr ⟨_, h1.symm⟩)
  | pyStr s =>
    dsimp only at he
    injection he with h1
    exact Or.inr (Or.inr ⟨_, h1.symm⟩)

theorem convertEntries_error_kind (scale : List ℚ) :
    ∀ (es : List (Nat × PyObj)) (h : Heap) (e : PyError),
      convertEntries scale h es = .error e →
      e = .indexError ∨ e = .danglingRef ∨ ∃ m, e = .attrError m
  | [], h, e, he => by simp [convertEntries] at he
  | (k, v) :: rest, h, e, he => by
    simp only [convertEntries] at he
    cases hc : convert_unit_ndarray_scalar h v scale with
    | error e1 =>
      rw [hc] at he
      injection he with h1
      exact h1 ▸ cucs_error_kind h v scale e1 hc
    | ok p =>
      rw [hc] at he
      obtain ⟨h1, v1⟩ := p
      dsimp only at he
      cases hr : convertEntries scale h1 rest with
      | error e2 =>
        rw [hr] at he
        injection he with h2
        exact h2 ▸ convertEntries_error_kind scale rest h1 e2 hr
      | ok q =>
        rw [hr] at he
        obtain ⟨h2, r1⟩ := q
        simp at he

theorem convert_unit_error_kind (h : Heap) (data : PyObj) (src dst : List String)
    (e : PyError) (he : convert_unit h data src dst = .error e) :
    e = .indexError ∨ e = .danglingRef ∨ ∃ m, e = .attrError m := by
  unfold convert_unit at he
  cases hu : unit_conversion_scale src dst with
  | error e1 =>
    rw [hu] at he
    injection he with h1
    exact Or.inl (h1 ▸ ucs_go_error_kind src dst e1 hu)
  | ok scale =>
    rw [hu] at he
    cases data with
    | dict entries =>
      dsimp only at he
      cases hc : convertEntries scale h entries with
      | error e1 =>
        rw [hc] at he
        injection he with h1
        exact h1 ▸ convertEntries_error_kind scale entries h e1 hc
      | ok p =>
        rw [hc] at he
        cases p with
        | mk h1 es1 => simp at he
    | arr a =>
      dsimp only at he
      cases hg : h.get a with
      | none =>
        rw [hg] at he
        injection he with h1
        exact Or.inr (Or.inl h1.symm)
      | some c =>
        rw [hg] at he
        exact cucs_error_kind _ _ _ e he
    | num v =>
      dsimp only at he
      exact cucs_error_kind _ _ _ e he
    | pyList l =>
      dsimp only at he
      exact cucs_error_kind _ _ _ e he
    | pyStr s =>
      dsimp only at he
      injection he with h1
      exact Or.inr (Or.inr ⟨_, h1.symm⟩)

/-- No path of `convert_unit` raises the unit-length `ValueError`. -/
theorem convert_unit_ne_unit_error (h : Heap) (data : PyObj) (src dst : List String)
    (e : PyError) (he : convert_unit h data src dst = .error e) (m : String) :
    e ≠ .valueError m := by
  rcases convert_unit_error_kind h data src dst e he with h1 | h1 | ⟨m1, h1⟩ <;>
    subst h1 <;> intro hc <;> cases hc

theorem getStored_storeData (sd : SimData) (d : PyObj) (key : Option Nat) :
    getStored (storeData sd d key) key = some d := by
  cases key with
  | none => rfl
  | some k =>
    cases hsd : sd.data <;>
      simp [storeData, getStored, hsd, dictGet_dictSet_self]

/-- C7: constructing a Dataset with both a units list and an output-units
list pads the shorter list with the tail of the longer, so afterwards the
lengths agree; concretely `units=["m","s"], outputUnits=["ft"]` yields
output units `["ft","s"]`, and `units=["m"], outputUnits=["ft","Hz"]`
yields units `["m","Hz"]`. -/
theorem simDataInit_padding_c7 (nm ds : String) (u ou : List String)
    (pt lx ly : Bool) (g : String) (lg : Option (List String)) :
    ((simDataInit nm ds (some u) (some ou) pt lx ly g lg).units =
        u ++ ou.drop u.length ∧
      (simDataInit nm ds (some u) (some ou) pt lx ly g lg).output_units =
        ou ++ u.drop ou.length ∧
      (simDataInit nm ds (some u) (some ou) pt lx ly g lg).units.length =
        (simDataInit nm ds (some u) (some ou) pt lx ly g lg).output_units.length) ∧
    ((simDataInit "x" "" (some ["m", "s"]) (some ["ft"]) true false false
        "on" none).output_units = ["ft", "s"] ∧
      (simDataInit "x" "" (some ["m"]) (some ["ft", "Hz"]) true false false
        "on" none).units = ["m", "Hz"]) := by
  obtain ⟨h1, h2⟩ := simDataInit_units_spec nm ds u ou pt lx ly g lg
  refine ⟨⟨h1, h2, ?_⟩, rfl, rfl⟩
  rw [h1, h2]
  simp only [List.length_append, List.length_drop]
  omega

/-- C5: a write with `key=None` replaces the payload wholesale (discarding
any previously built mapping); a keyed write onto a non-mapping payload
resets it to an empty mapping first and stores the single entry; a keyed
write onto a mapping stores under that key and leaves all other entries
untouched. -/
theorem add_data_store_c5 (sd : SimData) (d : PyObj) (h : Heap) :
    (add_data sd d none none h = .ok (h, { sd with data := d })) ∧
    (∀ k, sd.data.isDict = false →
      add_data sd d (some k) none h =
        .ok (h, { sd with data := .dict [(k, d)] })) ∧
    (∀ k es, sd.data = .dict es →
      add_data sd d (some k) none h =
          .ok (h, { sd with data := .dict (dictSet es k d) }) ∧
        dictGet (dictSet es k d) k = some d ∧
        ∀ k2, k2 ≠ k → dictGet (dictSet es k d) k2 = dictGet es k2) := by
  refine ⟨rfl, ?_, ?_⟩
  · intro k hnd
    cases hsd : sd.data <;> simp [PyObj.isDict, hsd] at hnd ⊢ <;>
      simp [add_data, storeData, hsd, dictSet]
  · intro k es hsd
    refine ⟨by simp [add_data, storeData, hsd], dictGet_dictSet_self es k d,
      fun k2 hk2 => dictGet_dictSet_ne es k k2 d hk2⟩

/-- A scalar-payload dataset used by witnesses. -/
def sdScalarW : SimData :=
  { name := "a", description := "", units := [], output_units := [],
    plottable := true, logx := false, logy := false, grid := "on",
    legend := none, data := .num 5 }

/-- A one-entry mapping dataset used by witnesses. -/
def sdDictW : SimData :=
  { name := "a", description := "", units := [], output_units := [],
    plottable := true, logx := false, logy := false, grid := "on",
    legend := none, data := .dict [(1, .num 7)] }

/-- Witness for C5 at concrete inputs: a keyed write onto a scalar payload
resets to a one-entry mapping, and a keyed write onto an existing mapping
leaves the other key untouched. -/
theorem add_data_store_c5_witness :
    (add_data sdScalarW (.num 9) (some 0) none ⟨[], 0⟩ =
      .ok (⟨[], 0⟩, { sdScalarW with data := .dict [(0, .num 9)] })) ∧
    (dictGet (dictSet [(1, PyObj.num 7)] 0 (.num 9)) 1 =
      dictGet [(1, PyObj.num 7)] 1) := by
  constructor
  · exact (add_data_store_c5 sdScalarW (.num 9) ⟨[], 0⟩).2.1 0 rfl
  · exact ((add_data_store_c5 sdDictW (.num 9) ⟨[], 0⟩).2.2 0
      [(1, .num 7)] rfl).2.2 1 (by decide)

/-- C6: a write that supplies a caller units list raises the
unit-length-mismatch `ValueError` exactly when the lengths disagree (the
raise precedes the store, so nothing is written); with matching lengths
the stored value is the conversion result when the lists differ
element-wise and exactly the given object when they are equal. -/
theorem add_data_units_c6 (sd : SimData) (d : PyObj) (key : Option Nat)
    (us : List String) (h : Heap) :
    (us.length ≠ sd.units.length →
      add_data sd d key (some us) h =
        .error (.valueError "Units are of different lengths.")) ∧
    (us.length = sd.units.length →
      add_data sd d key (some us) h ≠
        .error (.valueError "Units are of different lengths.")) ∧
    (us = sd.units →
      add_data sd d key (some us) h = .ok (h, storeData sd d key) ∧
      getStored (storeData sd d key) key = some d) ∧
    (us.length = sd.units.length → us ≠ sd.units →
      ∀ h1 d1, convert_unit h d us sd.units = .ok (h1, d1) →
        add_data sd d key (some us) h = .ok (h1, storeData sd d1 key) ∧
        getStored (storeData sd d1 key) key = some d1) := by
  refine ⟨?_, ?_, ?_, ?_⟩
  · intro hne
    unfold add_data
    dsimp only
    rw [if_neg hne]
  · intro hlen
    unfold add_data
    dsimp only
    rw [if_pos hlen]
    by_cases heq : us = sd.units
    · rw [if_neg (not_not_intro heq)]
      simp
    · rw [if_pos heq]
      cases hc : convert_unit h d us sd.units with
      | error e =>
        intro hcontra
        injection hcontra with h1
        exact convert_unit_ne_unit_error h d us sd.units e hc _ h1
      | ok p => obtain ⟨h1, d1⟩ := p; simp
  · intro heq
    have hlen : us.length = sd.units.length := by rw [heq]
    refine ⟨?_, getStored_storeData sd d key⟩
    unfold add_data
    dsimp only
    rw [if_pos hlen, if_neg (not_not_intro heq)]
  · intro hlen hne h1 d1 hc
    refine ⟨?_, getStored_storeData sd d1 key⟩
    unfold add_data
    dsimp only
    rw [if_pos hlen, if_pos hne, hc]

/-- A dataset with one storage unit, used by the C6 witness. -/
def sdUnitW : SimData :=
  { name := "a", description := "", units := ["m"], output_units := ["m"],
    plottable := true, logx := false, logy := false, grid := "on",
    legend := none, data := .dict [] }

/-- Witness for C6 at concrete inputs: a length-2 caller list against a
length-1 dataset raises the unit-length error; the equal list stores the
value untouched. -/
theorem add_data_units_c6_witness :
    (add_data sdUnitW (.num 1) none (some ["m", "s"]) ⟨[], 0⟩ =
      .error (.valueError "Units are of different lengths.")) ∧
    (add_data sdUnitW (.num 1) none (some ["m"]) ⟨[], 0⟩ =
      .ok (⟨[], 0⟩, { sdUnitW with data := .num 1 })) := by
  constructor
  · exact (add_data_units_c6 sdUnitW (.num 1) none ["m", "s"] ⟨[], 0⟩).1 (by decide)
  · exact ((add_data_units_c6 sdUnitW (.num 1) none ["m"] ⟨[], 0⟩).2.2.1 rfl).1

/-! ### The round-trip law (claim about `convert(convert(x, A, B), B, A)`) -/

/-- The double conversion of the round-trip law. -/
def roundTrip (h : Heap) (x : PyObj) (A B : List String) :
    Except PyError (Heap × PyObj) :=
  match convert_unit h x A B with
  | .error e => .error e
  | .ok (h1, y) => convert_unit h1 y B A

/-- Observe the value a conversion result denotes. -/
def resultVal (r : Except PyError (Heap × PyObj)) : Option ResVal :=
  match r with
  | .ok (h, y) => resolve h y
  | .error _ => none

/-- The payload shapes the round-trip claim quantifies over: a numeric
scalar or a live reference to a 1-D or 2-D array. -/
def goodShape (h : Heap) : PyObj → Prop
  | .num _ => True
  | .arr a => (∃ v, h.get a = some (.d1 v)) ∨ (∃ rows, h.get a = some (.d2 rows))
  | _ => False

theorem resolve_arr (h : Heap) (a : Nat) (c : Content) (hg : h.get a = some c) :
    resolve h (.arr a) = some (.arr c) := by
  simp [resolve, hg]

theorem convert_unit_num_eq (h : Heap) (v : ℚ) (A B : List String)
    (scale : List ℚ) (hs : unit_conversion_scale A B = .ok scale) :
    convert_unit h (.num v) A B = convert_unit_ndarray_scalar h (.num v) scale := by
  unfold convert_unit
  rw [hs]

theorem convert_unit_arr_eq (h : Heap) (a : Nat) (c : Content) (A B : List String)
    (scale : List ℚ) (hg : h.get a = some c)
    (hs : unit_conversion_scale A B = .ok scale) :
    convert_unit h (.arr a) A B =
      convert_unit_ndarray_scalar (h.alloc c).1 (.arr (h.alloc c).2) scale := by
  unfold convert_unit
  rw [hs]
  dsimp only
  rw [hg]

theorem cucs_num_eq (h : Heap) (v s0 : ℚ) (t : List ℚ) :
    convert_unit_ndarray_scalar h (.num v) (s0 :: t) = .ok (h, .num (v * s0)) := rfl

theorem cucs_d1_nonzero (h : Heap) (a : Nat) (v : List ℚ) (s0 : ℚ) (t : List ℚ)
    (hg : h.get a = some (.d1 v)) (hs0 : s0 ≠ 0) :
    convert_unit_ndarray_scalar h (.arr a) (s0 :: t) =
      .ok ((h.alloc (.d1 (v.map (fun e => e * s0)))).1,
        .arr (h.alloc (.d1 (v.map (fun e => e * s0)))).2) := by
  unfold convert_unit_ndarray_scalar
  dsimp only
  rw [hg]
  dsimp only
  rw [if_pos hs0]

theorem cucs_d1_zero (h : Heap) (a : Nat) (v : List ℚ) (s0 : ℚ) (t : List ℚ)
    (hg : h.get a = some (.d1 v)) (hs0 : s0 = 0) :
    convert_unit_ndarray_scalar h (.arr a) (s0 :: t) = .ok (h, .arr a) := by
  unfold convert_unit_ndarray_scalar
  dsimp only
  rw [hg]
  dsimp only
  rw [if_neg (not_not_intro hs0)]

theorem cucs_d2_eq (h : Heap) (a : Nat) (rows : List (List ℚ)) (scale : List ℚ)
    (hg : h.get a = some (.d2 rows)) :
    convert_unit_ndarray_scalar h (.arr a) scale =
      .ok (h.set a (.d2 (scaleLoop rows scale (min scale.length (numCols rows)))),
        .arr a) := by
  unfold convert_unit_ndarray_scalar
  dsimp only
  rw [hg]

theorem roundTrip_num_val (h : Heap) (v : ℚ) (A B : List String)
    (s1h s2h : ℚ) (s1t s2t : List ℚ)
    (hs1 : unit_conversion_scale A B = .ok (s1h :: s1t))
    (hs2 : unit_conversion_scale B A = .ok (s2h :: s2t)) :
    resultVal (roundTrip h (.num v) A B) = some (.num (v * s1h * s2h)) := by
  have e1 : convert_unit h (.num v) A B = .ok (h, .num (v * s1h)) := by
    rw [convert_unit_num_eq h v A B _ hs1]
    exact cucs_num_eq h v s1h s1t
  have e2 : convert_unit h (.num (v * s1h)) B A = .ok (h, .num (v * s1h * s2h)) := by
    rw [convert_unit_num_eq h _ B A _ hs2]
    exact cucs_num_eq h _ s2h s2t
  unfold roundTrip
  rw [e1]
  dsimp only
  rw [e2]
  rfl

theorem roundTrip_d1_val (h : Heap) (a : Nat) (v : List ℚ) (A B : List String)
    (s1h s2h : ℚ) (s1t s2t : List ℚ)
    (hg : h.get a = some (.d1 v))
    (hs1 : unit_conversion_scale A B = .ok (s1h :: s1t))
    (hs2 : unit_conversion_scale B A = .ok (s2h :: s2t))
    (hn1 : s1h ≠ 0) (hn2 : s2h ≠ 0) :
    resultVal (roundTrip h (.arr a) A B) =
      some (.arr (.d1 ((v.map (fun e => e * s1h)).map (fun e => e * s2h)))) := by
  have e1 : convert_unit h (.arr a) A B =
      convert_unit_ndarray_scalar (h.alloc (.d1 v)).1 (.arr (h.alloc (.d1 v)).2)
        (s1h :: s1t) :=
    convert_unit_arr_eq h a (.d1 v) A B _ hg hs1
  have hgb : (h.alloc (.d1 v)).1.get (h.alloc (.d1 v)).2 = some (.d1 v) :=
    Heap.get_alloc h (.d1 v)
  have e2 := cucs_d1_nonzero _ _ _ _ s1t hgb hn1
  have hgb2 := Heap.get_alloc (h.alloc (.d1 v)).1 (.d1 (v.map (fun e => e * s1h)))
  have e3 : convert_unit ((h.alloc (.d1 v)).1.alloc (.d1 (v.map (fun e => e * s1h)))).1
      (.arr ((h.alloc (.d1 v)).1.alloc (.d1 (v.map (fun e => e * s1h)))).2) B A =
      convert_unit_ndarray_scalar
        ((((h.alloc (.d1 v)).1.alloc (.d1 (v.map (fun e => e * s1h)))).1).alloc
          (.d1 (v.map (fun e => e * s1h)))).1
        (.arr ((((h.alloc (.d1 v)).1.alloc (.d1 (v.map (fun e => e * s1h)))).1).alloc
          (.d1 (v.map (fun e => e * s1h)))).2) (s2h :: s2t) :=
    convert_unit_arr_eq _ _ _ B A _ hgb2 hs2
  have hgb3 := Heap.get_alloc
    (((h.alloc (.d1 v)).1.alloc (.d1 (v.map (fun e => e * s1h)))).1)
    (.d1 (v.map (fun e => e * s1h)))
  have e4 := cucs_d1_nonzero _ _ _ _ s2t hgb3 hn2
  unfold roundTrip
  rw [e1.trans e2]
  dsimp only
  rw [e3.trans e4]
  unfold resultVal
  exact resolve_arr _ _ _ (Heap.get_alloc _ _)

theorem roundTrip_d1_zero_val (h : Heap) (a : Nat) (v : List ℚ) (A B : List String)
    (s1t s2t : List ℚ)
    (hg : h.get a = some (.d1 v))
    (hs1 : unit_conversion_scale A B = .ok ((0 : ℚ) :: s1t))
    (hs2 : unit_conversion_scale B A = .ok ((0 : ℚ) :: s2t)) :
    resultVal (roundTrip h (.arr a) A B) = some (.arr (.d1 v)) := by
  have e1 : convert_unit h (.arr a) A B =
      convert_unit_ndarray_scalar (h.alloc (.d1 v)).1 (.arr (h.alloc (.d1 v)).2)
        ((0 : ℚ) :: s1t) :=
    convert_unit_arr_eq h a (.d1 v) A B _ hg hs1
  have hgb : (h.alloc (.d1 v)).1.get (h.alloc (.d1 v)).2 = some (.d1 v) :=
    Heap.get_alloc h (.d1 v)
  have e2 := cucs_d1_zero _ _ _ _ s1t hgb rfl
  have e3 : convert_unit (h.alloc (.d1 v)).1 (.arr (h.alloc (.d1 v)).2) B A =
      convert_unit_ndarray_scalar ((h.alloc (.d1 v)).1.alloc (.d1 v)).1
        (.arr ((h.alloc (.d1 v)).1.alloc (.d1 v)).2) ((0 : ℚ) :: s2t) :=
    convert_unit_arr_eq _ _ _ B A _ hgb hs2
  have hgb2 := Heap.get_alloc (h.alloc (.d1 v)).1 (.d1 v)
  have e4 := cucs_d1_zero _ _ _ _ s2t hgb2 rfl
  unfold roundTrip
  rw [e1.trans e2]
  dsimp only
  rw [e3.trans e4]
  unfold resultVal
  exact resolve_arr _ _ _ hgb2

theorem roundTrip_d2_val (h : Heap) (a : Nat) (rows : List (List ℚ))
    (A B : List String) (σ1 σ2 : List ℚ)
    (hg : h.get a = some (.d2 rows))
    (hs1 : unit_conversion_scale A B = .ok σ1)
    (hs2 : unit_conversion_scale B A = .ok σ2) :
    resultVal (roundTrip h (.arr a) A B) =
      some (.arr (.d2 (scaleLoop (scaleLoop rows σ1 (min σ1.length (numCols rows)))
        σ2 (min σ2.length (numCols (scaleLoop rows σ1
          (min σ1.length (numCols rows)))))))) := by
  have e1 : convert_unit h (.arr a) A B =
      convert_unit_ndarray_scalar (h.alloc (.d2 rows)).1 (.arr (h.alloc (.d2 rows)).2)
        σ1 :=
    convert_unit_arr_eq h a (.d2 rows) A B _ hg hs1
  have hgb : (h.alloc (.d2 rows)).1.get (h.alloc (.d2 rows)).2 = some (.d2 rows) :=
    Heap.get_alloc h (.d2 rows)
  have e2 := cucs_d2_eq _ _ rows σ1 hgb
  have hgb2 : ((h.alloc (.d2 rows)).1.set (h.alloc (.d2 rows)).2
      (.d2 (scaleLoop rows σ1 (min σ1.length (numCols rows))))).get
        (h.alloc (.d2 rows)).2 =
      some (.d2 (scaleLoop rows σ1 (min σ1.length (numCols rows)))) :=
    Heap.get_set_of_get _ _ _ _ hgb
  have e3 := convert_unit_arr_eq _ _ _ B A _ hgb2 hs2
  have hgb3 := Heap.get_alloc
    ((h.alloc (.d2 rows)).1.set (h.alloc (.d2 rows)).2
      (.d2 (scaleLoop rows σ1 (min σ1.length (numCols rows)))))
    (.d2 (scaleLoop rows σ1 (min σ1.length (numCols rows))))
  have e4 := cucs_d2_eq _ _ _ σ2 hgb3
  unfold roundTrip
  rw [e1.trans e2]
  dsimp only
  rw [e3.trans e4]
  unfold resultVal
  exact resolve_arr _ _ _ (Heap.get_set_of_get _ _ _ _ hgb3)

/-- C2 (amended): for unit lists of equal positive length whose pairings
all lie in the fixed conversion table, the double conversion
`convert(convert(x, A, B), B, A)` reconstructs the value of `x` exactly
(scalar, 1-D, and 2-D payloads); when every per-column scale is the zero
sentinel in both directions (pairings outside the table, including equal
units), the double conversion returns 1-D and 2-D array payloads
unchanged.  Numeric scalar payloads are excluded from the zero-sentinel
part: the scalar branch multiplies unconditionally, collapsing them to
`0` (see the counterexample). -/
theorem convert_unit_roundtrip_c2 (A B : List String) (hlen : A.length = B.length)
    (hpos : 0 < A.length) :
    ((∀ i, i < A.length → inTable (A.getD i "") (B.getD i "")) →
      ∀ (h : Heap) (x : PyObj), goodShape h x →
        resultVal (roundTrip h x A B) = resolve h x) ∧
    ((∀ i, i < A.length → pairScale (A.getD i "") (B.getD i "") = 0 ∧
        pairScale (B.getD i "") (A.getD i "") = 0) →
      ∀ (h : Heap) (a : Nat),
        ((∃ v, h.get a = some (.d1 v)) ∨ (∃ rows, h.get a = some (.d2 rows))) →
        resultVal (roundTrip h (.arr a) A B) = resolve h (.arr a)) := by
  obtain ⟨a0, A', rfl⟩ : ∃ a0 A', A = a0 :: A' := by
    cases A with
    | nil => simp at hpos
    | cons x xs => exact ⟨x, xs, rfl⟩
  obtain ⟨b0, B', rfl⟩ : ∃ b0 B', B = b0 :: B' := by
    cases B with
    | nil => simp at hlen
    | cons x xs => exact ⟨x, xs, rfl⟩
  have hBA : (b0 :: B').length ≤ (a0 :: A').length := le_of_eq hlen.symm
  have hABle : (a0 :: A').length ≤ (b0 :: B').length := le_of_eq hlen
  have hs1z : unit_conversion_scale (a0 :: A') (b0 :: B') =
      .ok (List.zipWith pairScale (a0 :: A') (b0 :: B')) :=
    unit_conversion_scale_ok _ _ hBA
  have hs2z : unit_conversion_scale (b0 :: B') (a0 :: A') =
      .ok (List.zipWith pairScale (b0 :: B') (a0 :: A')) :=
    unit_conversion_scale_ok _ _ hABle
  have hs1c : unit_conversion_scale (a0 :: A') (b0 :: B') =
      .ok (pairScale a0 b0 :: List.zipWith pairScale A' B') := hs1z
  have hs2c : unit_conversion_scale (b0 :: B') (a0 :: A') =
      .ok (pairScale b0 a0 :: List.zipWith pairScale B' A') := hs2z
  have hσ1 : (List.zipWith pairScale (a0 :: A') (b0 :: B')).length =
      (b0 :: B').length := by
    rw [List.length_zipWith]
    omega
  have hσ2 : (List.zipWith pairScale (b0 :: B') (a0 :: A')).length =
      (a0 :: A').length := by
    rw [List.length_zipWith]
    omega
  constructor
  · intro htab h x hx
    have h0 : inTable a0 b0 := htab 0 (Nat.succ_pos _)
    obtain ⟨hp1, hprod⟩ := pairScale_table a0 b0 h0
    have hp2 : pairScale b0 a0 ≠ 0 := by
      intro hzz
      rw [hzz, mul_zero] at hprod
      exact zero_ne_one hprod
    cases x with
    | num v =>
      rw [roundTrip_num_val h v _ _ _ _ _ _ hs1c hs2c]
      show some (ResVal.num (v * pairScale a0 b0 * pairScale b0 a0)) =
        resolve h (.num v)
      rw [mul_assoc, hprod, mul_one]
      rfl
    | arr a =>
      rcases hx with ⟨v, hg⟩ | ⟨rows, hg⟩
      · rw [roundTrip_d1_val h a v _ _ _ _ _ _ hg hs1c hs2c hp1 hp2,
          resolve_arr h a _ hg, List.map_map]
        have hid : ∀ e ∈ v,
            ((fun e => e * pairScale b0 a0) ∘ (fun e => e * pairScale a0 b0)) e =
              id e := by
          intro e _
          show e * pairScale a0 b0 * pairScale b0 a0 = e
          rw [mul_assoc, hprod, mul_one]
        rw [List.map_congr_left hid, List.map_id]
      · rw [roundTrip_d2_val h a rows _ _ _ _ hg hs1z hs2z,
          resolve_arr h a _ hg]
        have hn : min (List.zipWith pairScale (b0 :: B') (a0 :: A')).length
            (numCols (scaleLoop rows (List.zipWith pairScale (a0 :: A') (b0 :: B'))
              (min (List.zipWith pairScale (a0 :: A') (b0 :: B')).length
                (numCols rows)))) =
            min (List.zipWith pairScale (a0 :: A') (b0 :: B')).length
              (numCols rows) := by
          rw [numCols_scaleLoop, hσ1, hσ2, hlen]
        rw [hn]
        have hrt : scaleLoop (scaleLoop rows
            (List.zipWith pairScale (a0 :: A') (b0 :: B'))
            (min (List.zipWith pairScale (a0 :: A') (b0 :: B')).length
              (numCols rows)))
            (List.zipWith pairScale (b0 :: B') (a0 :: A'))
            (min (List.zipWith pairScale (a0 :: A') (b0 :: B')).length
              (numCols rows)) = rows := by
          apply scaleLoop_roundtrip
          intro j hj
          have hjB : j < (b0 :: B').length := by
            rw [hσ1] at hj
            exact lt_of_lt_of_le hj (min_le_left _ _)
          have hjA : j < (a0 :: A').length := by omega
          rw [zipWith_pairScale_getD _ _ j hjB hBA,
            zipWith_pairScale_getD _ _ j hjA hABle]
          exact ⟨(pairScale_table _ _ (htab j hjA)).1,
            (pairScale_table _ _ (htab j hjA)).2⟩
        rw [hrt]
    | dict es => exact hx.elim
    | pyList l => exact hx.elim
    | pyStr s => exact hx.elim
  · intro hz h a hx
    have h00a : pairScale a0 b0 = 0 := (hz 0 (Nat.succ_pos _)).1
    have h00b : pairScale b0 a0 = 0 := (hz 0 (Nat.succ_pos _)).2
    rcases hx with ⟨v, hg⟩ | ⟨rows, hg⟩
    · have hs1c0 : unit_conversion_scale (a0 :: A') (b0 :: B') =
          .ok ((0 : ℚ) :: List.zipWith pairScale A' B') := by
        rw [hs1c, h00a]
      have hs2c0 : unit_conversion_scale (b0 :: B') (a0 :: A') =
          .ok ((0 : ℚ) :: List.zipWith pairScale B' A') := by
        rw [hs2c, h00b]
      rw [roundTrip_d1_zero_val h a v _ _ _ _ hg hs1c0 hs2c0,
        resolve_arr h a _ hg]
    · rw [roundTrip_d2_val h a rows _ _ _ _ hg hs1z hs2z,
        resolve_arr h a _ hg]
      have h1 : scaleLoop rows (List.zipWith pairScale (a0 :: A') (b0 :: B'))
          (min (List.zipWith pairScale (a0 :: A') (b0 :: B')).length
            (numCols rows)) = rows := by
        apply scaleLoop_zero
        intro j hj
        have hjB : j < (b0 :: B').length := by
          rw [hσ1] at hj
          exact lt_of_lt_of_le hj (min_le_left _ _)
        have hjA : j < (a0 :: A').length := by omega
        rw [zipWith_pairScale_getD _ _ j hjB hBA]
        exact (hz j hjA).1
      rw [h1]
      have h2 : scaleLoop rows (List.zipWith pairScale (b0 :: B') (a0 :: A'))
          (min (List.zipWith pairScale (b0 :: B') (a0 :: A')).length
            (numCols rows)) = rows := by
        apply scaleLoop_zero
        intro j hj
        have hjA : j < (a0 :: A').length := by
          rw [hσ2] at hj
          exact lt_of_lt_of_le hj (min_le_left _ _)
        rw [zipWith_pairScale_getD _ _ j (by omega) hABle]
        exact (hz j hjA).2
      rw [h2]

/-- C2 counterexample: with equal units `["m"]` (every scale the zero
sentinel) a numeric scalar payload does not round-trip: the scalar branch
multiplies by the zero scale unconditionally, so `1` becomes `0` after one
conversion and stays `0` after the double conversion. -/
theorem convert_unit_roundtrip_c2_cex :
    resultVal (roundTrip ⟨[], 0⟩ (.num 1) ["m"] ["m"]) = some (.num 0) ∧
    resolve ⟨[], 0⟩ (.num 1) = some (.num 1) ∧ (0 : ℚ) ≠ 1 := by
  refine ⟨?_, rfl, by norm_num⟩
  have h1 : roundTrip ⟨[], 0⟩ (.num 1) ["m"] ["m"] =
      .ok (⟨[], 0⟩, .num (1 * pairScale "m" "m" * pairScale "m" "m")) := rfl
  rw [h1]
  show some (ResVal.num (1 * pairScale "m" "m" * pairScale "m" "m")) =
    some (.num 0)
  rw [show pairScale "m" "m" = 0 from rfl]
  norm_num

/-- Witness for C2 at concrete inputs: a table pairing round-trips a 1-D
payload, and equal units (zero scales) leave a 1-D payload unchanged. -/
theorem convert_unit_roundtrip_c2_witness :
    (resultVal (roundTrip ⟨[(0, .d1 [3])], 1⟩ (.arr 0) ["deg"] ["rad"]) =
      resolve ⟨[(0, .d1 [3])], 1⟩ (.arr 0)) ∧
    (resultVal (roundTrip ⟨[(0, .d1 [3])], 1⟩ (.arr 0) ["m"] ["m"]) =
      resolve ⟨[(0, .d1 [3])], 1⟩ (.arr 0)) := by
  constructor
  · exact (convert_unit_roundtrip_c2 ["deg"] ["rad"] rfl (by decide)).1
      (fun i hi => by
        have : i = 0 := by
          simp only [List.length_cons, List.length_nil] at hi
          omega
        subst this
        exact Or.inl ⟨rfl, rfl⟩)
      ⟨[(0, .d1 [3])], 1⟩ (.arr 0) (Or.inl ⟨[3], rfl⟩)
  · exact (convert_unit_roundtrip_c2 ["m"] ["m"] rfl (by decide)).2
      (fun i hi => by
        have : i = 0 := by
          simp only [List.length_cons, List.length_nil] at hi
          omega
        subst this
        exact ⟨rfl, rfl⟩)
      ⟨[(0, .d1 [3])], 1⟩ 0 (Or.inl ⟨[3], rfl⟩)

/-! ### Mutation of the caller's arrays -/

/-- Helper computation: one nonzero-scale pass over the 2-D array
`[[1]]`. -/
theorem scaleLoop_one_cell :
    scaleLoop [[1]] [pairScale "deg" "rad"] 1 = [[(1 : ℚ) * D2R]] := by
  simp only [scaleLoop]
  rw [if_pos (show [pairScale "deg" "rad"].getD 0 0 ≠ 0 from D2R_ne_zero)]
  rfl

/-- C1 (code bug): `convert_unit` on a keyed mapping mutates the caller's
2-D array in place (`dict.copy()` is shallow, and the 2-D branch of
`convert_unit_ndarray_scalar` assigns columns into the existing array),
contradicting `convert_unit`'s own docstring "Notice not to change values
in data" and the `x = data.copy()  # avoid changing values in data`
comment.  At the failing input the array stored at address 0 holds `1.0`
before the call and `pi/180` after it; the bare-array form of
`convert_unit_ndarray_scalar` mutates the same way. -/
theorem convert_unit_mutates_c1 :
    (convert_unit ⟨[(0, .d2 [[1]])], 1⟩ (.dict [(0, .arr 0)]) ["deg"] ["rad"] =
      .ok (⟨[(0, .d2 [[D2R]])], 1⟩, .dict [(0, .arr 0)])) ∧
    Heap.get ⟨[(0, .d2 [[D2R]])], 1⟩ 0 ≠ Heap.get ⟨[(0, .d2 [[1]])], 1⟩ 0 ∧
    (convert_unit_ndarray_scalar ⟨[(0, .d2 [[1]])], 1⟩ (.arr 0)
        [pairScale "deg" "rad"] =
      .ok (⟨[(0, .d2 [[D2R]])], 1⟩, .arr 0)) := by
  have e0 := cucs_d2_eq (⟨[(0, .d2 [[1]])], 1⟩ : Heap) 0 [[1]]
    [pairScale "deg" "rad"] rfl
  have hmin : min ([pairScale "deg" "rad"].length) (numCols [[(1 : ℚ)]]) = 1 := rfl
  rw [hmin, scaleLoop_one_cell, one_mul] at e0
  have hset : (⟨[(0, .d2 [[1]])], 1⟩ : Heap).set 0 (.d2 [[D2R]]) =
      ⟨[(0, .d2 [[D2R]])], 1⟩ := rfl
  rw [hset] at e0
  refine ⟨?_, ?_, e0⟩
  · unfold convert_unit
    rw [show unit_conversion_scale ["deg"] ["rad"] =
      .ok [pairScale "deg" "rad"] from rfl]
    dsimp only
    unfold convertEntries
    rw [e0]
    rfl
  · have hne : D2R ≠ 1 := by norm_num [D2R, piQ]
    simp [Heap.get, List.find?, hne]

/-! ### Shapes rejected or silently accepted by `convert_unit_ndarray_scalar` -/

/-- C8 counterexample: a 3-D NumPy array is neither a scalar nor 1-D nor
2-D, yet `convert_unit_ndarray_scalar` returns it unchanged instead of
raising: the `ndim` dispatch has no else-branch inside the
`isinstance(x, np.ndarray)` arm. -/
theorem cucs_3d_returns_c8_cex :
    convert_unit_ndarray_scalar ⟨[(0, .dN [1, 1, 5] [1, 2, 3, 4, 5])], 1⟩
      (.arr 0) [2] =
      .ok (⟨[(0, .dN [1, 1, 5] [1, 2, 3, 4, 5])], 1⟩, .arr 0) := rfl

/-- C8 (amended): inputs that are neither NumPy arrays nor numeric scalars
(dicts, lists, strings) do fail, but with `AttributeError` rather than the
`ValueError`, because the raise statement's message formatting reads the
missing `ndim` attribute first; a NumPy array whose `ndim` is neither 1
nor 2 (e.g. 3-D) is returned unchanged with no error at all. -/
theorem cucs_bad_shapes_c8 (h : Heap) (scale : List ℚ) :
    (∀ es, convert_unit_ndarray_scalar h (.dict es) scale =
      .error (.attrError "dict object has no ndim")) ∧
    (∀ l, convert_unit_ndarray_scalar h (.pyList l) scale =
      .error (.attrError "list object has no ndim")) ∧
    (∀ s, convert_unit_ndarray_scalar h (.pyStr s) scale =
      .error (.attrError "str object has no ndim")) ∧
    (∀ a shape flat, h.get a = some (.dN shape flat) →
      convert_unit_ndarray_scalar h (.arr a) scale = .ok (h, .arr a)) := by
  refine ⟨fun es => rfl, fun l => rfl, fun s => rfl, fun a shape flat hg => ?_⟩
  unfold convert_unit_ndarray_scalar
  dsimp only
  rw [hg]

/-- Witness for C8 at concrete inputs: a Python list fails with
`AttributeError`, and a 3-D array at address 0 is passed through. -/
theorem cucs_bad_shapes_c8_witness :
    (convert_unit_ndarray_scalar ⟨[], 0⟩ (.pyList [1]) [2] =
      .error (.attrError "list object has no ndim")) ∧
    (convert_unit_ndarray_scalar ⟨[(0, .dN [1, 1, 5] [9])], 1⟩ (.arr 0) [] =
      .ok (⟨[(0, .dN [1, 1, 5] [9])], 1⟩, .arr 0)) :=
  ⟨(cucs_bad_shapes_c8 ⟨[], 0⟩ [2]).2.1 [1],
    (cucs_bad_shapes_c8 ⟨[(0, .dN [1, 1, 5] [9])], 1⟩ []).2.2.2 0 [1, 1, 5] [9] rfl⟩

/-! ### Export file naming -/

theorem saveEntries_names (sd : SimData) (dir hdr : String) :
    ∀ (es : List (Nat × PyObj)) (h h2 : Heap) (calls : List SaveCall),
      saveEntries sd dir hdr h es = .ok (h2, calls) →
      calls.map (fun c => c.fileName) =
        es.map (fun p => dir ++ "//" ++ sd.name ++ "-" ++ toString p.1 ++ ".csv")
  | [], h, h2, calls, he => by
    simp only [saveEntries] at he
    injection he with he1
    injection he1 with _ he2
    rw [← he2]
    rfl
  | (k, v) :: rest, h, h2, calls, he => by
    simp only [saveEntries] at he
    cases hc : convert_unit h v sd.units sd.output_units with
    | error e => rw [hc] at he; simp at he
    | ok p =>
      rw [hc] at he
      obtain ⟨h1, v1⟩ := p
      dsimp only at he
      cases hr : saveEntries sd dir hdr h1 rest with
      | error e => rw [hr] at he; simp at he
      | ok q =>
        rw [hr] at he
        obtain ⟨h3, rest1⟩ := q
        dsimp only at he
        injection he with he1
        injection he1 with _ he2
        rw [← he2]
        simp only [List.map_cons]
        rw [saveEntries_names sd dir hdr rest h1 h3 rest1 hr]

/-- C9 (amended): export serializes a keyed entry `k` to
`dir + "//" + name + "-" + str(k) + ".csv"` and a bare payload to
`dir + "//" + name + ".csv"` — with a doubled path separator, not the
single one the claim states (see the counterexample). -/
theorem save_to_file_paths_c9 (sd : SimData) (h : Heap) (dir : String) :
    (∀ es, sd.data = .dict es →
      ∀ h2 calls, save_to_file sd h dir = .ok (h2, calls) →
        calls.map (fun c => c.fileName) =
          es.map (fun p => dir ++ "//" ++ sd.name ++ "-" ++ toString p.1 ++ ".csv")) ∧
    (sd.data.isDict = false →
      ∀ h2 calls, save_to_file sd h dir = .ok (h2, calls) →
        calls.map (fun c => c.fileName) = [dir ++ "//" ++ sd.name ++ ".csv"]) := by
  constructor
  · intro es hsd h2 calls he
    unfold save_to_file at he
    cases hcols : saveCols sd h with
    | error e => rw [hcols] at he; simp at he
    | ok cols =>
      rw [hcols] at he
      dsimp only at he
      rw [hsd] at he
      exact saveEntries_names sd dir _ es h h2 calls he
  · intro hnd h2 calls he
    unfold save_to_file at he
    cases hcols : saveCols sd h with
    | error e => rw [hcols] at he; simp at he
    | ok cols =>
      rw [hcols] at he
      dsimp only at he
      cases hsd : sd.data with
      | dict es => rw [hsd] at hnd; simp [PyObj.isDict] at hnd
      | num v =>
        rw [hsd] at he
        dsimp only at he
        cases hc : convert_unit h (.num v) sd.units sd.output_units with
        | error e => rw [hc] at he; simp at he
        | ok p =>
          rw [hc] at he
          obtain ⟨h1, d1⟩ := p
          dsimp only at he
          injection he with he1
          injection he1 with _ he2
          rw [← he2]
          rfl
      | arr a =>
        rw [hsd] at he
        dsimp only at he
        cases hc : convert_unit h (.arr a) sd.units sd.output_units with
        | error e => rw [hc] at he; simp at he
        | ok p =>
          rw [hc] at he
          obtain ⟨h1, d1⟩ := p
          dsimp only at he
          injection he with he1
          injection he1 with _ he2
          rw [← he2]
          rfl
      | pyList l =>
        rw [hsd] at he
        dsimp only at he
        cases hc : convert_unit h (.pyList l) sd.units sd.output_units with
        | error e => rw [hc] at he; simp at he
        | ok p =>
          rw [hc] at he
          obtain ⟨h1, d1⟩ := p
          dsimp only at he
          injection he with he1
          injection he1 with _ he2
          rw [← he2]
          rfl
      | pyStr s =>
        rw [hsd] at he
        dsimp only at he
        cases hc : convert_unit h (.pyStr s) sd.units sd.output_units with
        | error e => rw [hc] at he; simp at he
        | ok p =>
          rw [hc] at he
          obtain ⟨h1, d1⟩ := p
          dsimp only at he
          injection he with he1
          injection he1 with _ he2
          rw [← he2]
          rfl

/-- A unitless one-entry keyed dataset named `gyro`, for path checks. -/
def sdPathW : SimData :=
  { name := "gyro", description := "", units := [], output_units := [],
    plottable := true, logx := false, logy := false, grid := "on",
    legend := none, data := .dict [(0, .arr 0)] }

/-- Heap for the path checks: address 0 holds the 1x1 table `[[1.0]]`. -/
def hPathW : Heap := ⟨[(0, .d2 [[1]])], 1⟩

/-- C9 counterexample: the keyed entry 0 of a dataset named `gyro`
exported to directory `out` is serialized to `out//gyro-0.csv` — the path
separator is doubled, so the path is not the claimed
`out + "/" + "gyro" + "-" + "0" + ".csv"`. -/
theorem save_to_file_paths_c9_cex :
    (save_to_file sdPathW hPathW "out" =
      .ok ((hPathW.alloc (.d2 [[1]])).1.set 1 (.d2 [[1]]),
        [⟨"out//gyro-0.csv", .arr 1, "gyro_0"⟩])) ∧
    "out//gyro-0.csv" ≠ "out" ++ "/" ++ "gyro" ++ "-" ++ "0" ++ ".csv" := by
  constructor
  · rfl
  · decide

/-- Witness for C9 at concrete inputs, naming the exported file through
the amended path law. -/
theorem save_to_file_paths_c9_witness :
    List.map (fun c => c.fileName)
      [(⟨"out//gyro-0.csv", PyObj.arr 1, "gyro_0"⟩ : SaveCall)] =
      [(0, PyObj.arr 0)].map
        (fun p => "out" ++ "//" ++ sdPathW.name ++ "-" ++ toString p.1 ++ ".csv") :=
  (save_to_file_paths_c9 sdPathW hPathW "out").1 [(0, .arr 0)] rfl
    ((hPathW.alloc (.d2 [[1]])).1.set 1 (.d2 [[1]]))
    [⟨"out//gyro-0.csv", .arr 1, "gyro_0"⟩] rfl

/-! ### The end-to-end gyro export scenario -/

/-- The gyro dataset of the end-to-end scenario: storage units `deg/s`,
display units `rad/s`. -/
def gyroSd : SimData :=
  simDataInit "gyro" "gyro data" (some ["deg/s", "deg/s", "deg/s"])
    (some ["rad/s", "rad/s", "rad/s"]) true false false "on" none

/-- Heap for the scenario: address 0 holds the 2x3 table of ones. -/
def gyroHeap : Heap := ⟨[(0, .d2 [[1, 1, 1], [1, 1, 1]])], 1⟩

/-- Scaling the 2x3 table of ones by `D2R` per column. -/
theorem scaleLoop_gyro :
    scaleLoop [[1, 1, 1], [1, 1, 1]] [D2R, D2R, D2R] 3 =
      [[D2R, D2R, D2R], [D2R, D2R, D2R]] := by
  have h0 : ([D2R, D2R, D2R] : List ℚ).getD 0 0 ≠ 0 := D2R_ne_zero
  have h1 : ([D2R, D2R, D2R] : List ℚ).getD 1 0 ≠ 0 := D2R_ne_zero
  have h2 : ([D2R, D2R, D2R] : List ℚ).getD 2 0 ≠ 0 := D2R_ne_zero
  simp only [scaleLoop]
  rw [if_pos h2, if_pos h1, if_pos h0]
  simp [scaleCol]

/-- C3: creating the `gyro` dataset, writing the 2x3 table of ones with
matching caller units (no conversion at write time since the payload is
stored as the same object), and exporting, serializes a table whose every
cell is `pi/180` under the header
`gyro_0 (rad/s),gyro_1 (rad/s),gyro_2 (rad/s)`. -/
theorem gyro_export_c3 (dir : String) :
    ∃ sd1 h2 y fn,
      add_data gyroSd (.arr 0) none (some ["deg/s", "deg/s", "deg/s"]) gyroHeap =
        .ok (gyroHeap, sd1) ∧
      save_to_file sd1 gyroHeap dir =
        .ok (h2, [⟨fn, y, "gyro_0 (rad/s),gyro_1 (rad/s),gyro_2 (rad/s)"⟩]) ∧
      resolve h2 y = some (.arr (.d2 [[D2R, D2R, D2R], [D2R, D2R, D2R]])) := by
  have hget0 : gyroHeap.get 0 = some (.d2 [[1, 1, 1], [1, 1, 1]]) := rfl
  have hucs : unit_conversion_scale ["deg/s", "deg/s", "deg/s"]
      ["rad/s", "rad/s", "rad/s"] = .ok [D2R, D2R, D2R] := rfl
  have hc1 := convert_unit_arr_eq gyroHeap 0 (.d2 [[1, 1, 1], [1, 1, 1]])
    ["deg/s", "deg/s", "deg/s"] ["rad/s", "rad/s", "rad/s"] [D2R, D2R, D2R]
    hget0 hucs
  have hga : (gyroHeap.alloc (.d2 [[1, 1, 1], [1, 1, 1]])).1.get
      (gyroHeap.alloc (.d2 [[1, 1, 1], [1, 1, 1]])).2 =
      some (.d2 [[1, 1, 1], [1, 1, 1]]) := Heap.get_alloc _ _
  have hc2 := cucs_d2_eq _ _ [[1, 1, 1], [1, 1, 1]] [D2R, D2R, D2R] hga
  have hmin : min ([D2R, D2R, D2R] : List ℚ).length
      (numCols [[(1 : ℚ), 1, 1], [1, 1, 1]]) = 3 := rfl
  rw [hmin, scaleLoop_gyro] at hc2
  have hconv : convert_unit gyroHeap (.arr 0) ["deg/s", "deg/s", "deg/s"]
      ["rad/s", "rad/s", "rad/s"] =
      .ok ((gyroHeap.alloc (.d2 [[1, 1, 1], [1, 1, 1]])).1.set 1
        (.d2 [[D2R, D2R, D2R], [D2R, D2R, D2R]]), .arr 1) := hc1.trans hc2
  refine ⟨{ gyroSd with data := PyObj.arr 0 },
    (gyroHeap.alloc (.d2 [[1, 1, 1], [1, 1, 1]])).1.set 1
      (.d2 [[D2R, D2R, D2R], [D2R, D2R, D2R]]),
    .arr 1, dir ++ "//" ++ "gyro" ++ ".csv", rfl, ?_, ?_⟩
  · unfold save_to_file
    rw [show saveCols { gyroSd with data := PyObj.arr 0 } gyroHeap = .ok 3 from rfl]
    dsimp only
    rw [show convert_unit gyroHeap (PyObj.arr 0) gyroSd.units gyroSd.output_units =
      .ok ((gyroHeap.alloc (.d2 [[1, 1, 1], [1, 1, 1]])).1.set 1
        (.d2 [[D2R, D2R, D2R], [D2R, D2R, D2R]]), .arr 1) from hconv]
    rfl
  · exact resolve_arr _ _ _ (Heap.get_set_of_get _ _ _ _ (Heap.get_alloc _ _))

/-! ### Radian wraparound of the reference difference -/

theorem resolveX_nondict (x : SimData) (hxnd : x.data.isDict = false) :
    resolveX x = .ok (some x.data) := by
  cases hx : x.data <;> rw [hx] at hxnd <;>
    simp [resolveX, hx, PyObj.isDict] at hxnd ⊢

theorem pySub_d2 (h : Heap) (a b : Nat) (rows rrows : List (List ℚ))
    (ha : h.get a = some (.d2 rows)) (hb : h.get b = some (.d2 rrows))
    (hsh : rows.length = rrows.length ∧ rows.map List.length = rrows.map List.length) :
    pySub h (.arr a) (.arr b) =
      .ok ((h.alloc (.d2 (List.zipWith
          (fun u t => List.zipWith (fun c d => c - d) u t) rows rrows))).1,
        .arr (h.alloc (.d2 (List.zipWith
          (fun u t => List.zipWith (fun c d => c - d) u t) rows rrows))).2) := by
  unfold pySub
  dsimp only
  rw [ha, hb]
  dsimp only
  rw [if_pos hsh]

theorem wrapObj_d2 (h : Heap) (a : Nat) (rows : List (List ℚ))
    (hg : h.get a = some (.d2 rows)) :
    wrapObj h (.arr a) =
      .ok ((h.alloc (.d2 (rows.map (fun r => r.map wrapVal)))).1,
        .arr (h.alloc (.d2 (rows.map (fun r => r.map wrapVal)))).2) := by
  unfold wrapObj
  dsimp only
  rw [hg]

theorem convert_rad_identity (h : Heap) (a : Nat) (rows : List (List ℚ))
    (hg : h.get a = some (.d2 rows)) :
    convert_unit h (.arr a) ["rad", "rad", "rad"] ["rad", "rad", "rad"] =
      .ok ((h.alloc (.d2 rows)).1.set (h.alloc (.d2 rows)).2 (.d2 rows),
        .arr (h.alloc (.d2 rows)).2) := by
  have hucs : unit_conversion_scale ["rad", "rad", "rad"] ["rad", "rad", "rad"] =
      .ok [0, 0, 0] := rfl
  have h1 := convert_unit_arr_eq h a (.d2 rows) ["rad", "rad", "rad"]
    ["rad", "rad", "rad"] [0, 0, 0] hg hucs
  have h2 := cucs_d2_eq (h.alloc (.d2 rows)).1 (h.alloc (.d2 rows)).2 rows
    [0, 0, 0] (Heap.get_alloc h (.d2 rows))
  have hz : scaleLoop rows [0, 0, 0]
      (min ([(0 : ℚ), 0, 0].length) (numCols rows)) = rows := by
    apply scaleLoop_zero
    intro j _
    rcases j with _ | _ | _ | j <;> rfl
  rw [hz] at h2
  exact h1.trans h2

theorem ndimOf_of_get (h : Heap) (a : Nat) (c : Content)
    (hg : h.get a = some c) : ndimOf h (.arr a) = .ok c.ndim := by
  unfold ndimOf
  dsimp only
  rw [hg]

theorem pif_some_d2 (h : Heap) (xv y : PyObj) (title : String)
    (hnd : ndimOf h y = .ok 2) :
    plot_in_one_figure h (some xv) y title = .ok (h, ⟨0, title, some xv, y⟩) := by
  unfold plot_in_one_figure
  dsimp only
  rw [hnd]

theorem map_map_zipWith_q (f : ℚ → ℚ → ℚ) (g : ℚ → ℚ) (A B : List (List ℚ)) :
    (List.zipWith (fun r s => List.zipWith f r s) A B).map (fun r => r.map g) =
      List.zipWith (fun r s => List.zipWith (fun u v => g (f u v)) r s) A B := by
  simp [List.map_zipWith]

theorem mem_zipWith_imp_q (f : ℚ → ℚ → ℚ) :
    ∀ (a b : List ℚ) (e : ℚ), e ∈ List.zipWith f a b → ∃ u v, e = f u v
  | [], _, e, he => by simp at he
  | _ :: _, [], e, he => by simp at he
  | u :: a, v :: b, e, he => by
    simp only [List.zipWith_cons_cons, List.mem_cons] at he
    rcases he with he | he
    · exact ⟨u, v, he⟩
    · exact mem_zipWith_imp_q f a b e he

theorem mem_zipWith2_imp_q (f : ℚ → ℚ → ℚ) :
    ∀ (A B : List (List ℚ)) (r : List ℚ),
      r ∈ List.zipWith (fun a b => List.zipWith f a b) A B →
      ∀ e ∈ r, ∃ u v, e = f u v
  | [], _, r, hr => by simp at hr
  | _ :: _, [], r, hr => by simp at hr
  | a :: A, b :: B, r, hr => by
    simp only [List.zipWith_cons_cons, List.mem_cons] at hr
    rcases hr with hr | hr
    · intro e he
      exact mem_zipWith_imp_q f a b e (hr ▸ he)
    · exact mem_zipWith2_imp_q f A B r hr

/-- C4: plotting against a reference on a dataset whose storage (and
display) units are exactly `["rad","rad","rad"]` plots the series
`(data - reference) % 2*pi`, reduced by `2*pi` wherever the residual
exceeds `pi` — so every plotted difference lies in `(-pi, pi]`.  The
display-unit conversion that follows is the identity here because the
`rad -> rad` pairing is the zero sentinel. -/
theorem plot_rad_wrap_c4 (sd x rf : SimData) (h : Heap) (a b : Nat)
    (rows rrows : List (List ℚ)) (key : Option (List Nat))
    (hu : sd.units = ["rad", "rad", "rad"])
    (hou : sd.output_units = ["rad", "rad", "rad"])
    (hp : sd.plottable = true)
    (hd : sd.data = .arr a) (ha : h.get a = some (.d2 rows))
    (hr : rf.data = .arr b) (hb : h.get b = some (.d2 rrows))
    (hsh : rows.length = rrows.length ∧ rows.map List.length = rrows.map List.length)
    (hxnd : x.data.isDict = false) (hxu : x.output_units ≠ []) :
    ∃ h2 c, plot sd h x key (some rf) 0 = .ok (h2, [c]) ∧
      ∃ wrows, resolve h2 c.y = some (.arr (.d2 wrows)) ∧
        wrows = List.zipWith (fun r s =>
          List.zipWith (fun u v => wrapVal (u - v)) r s) rows rrows ∧
        ∀ r ∈ wrows, ∀ e ∈ r, -piQ < e ∧ e ≤ piQ := by
  have hsub := pySub_d2 h a b rows rrows ha hb hsh
  have hga1 := Heap.get_alloc h (.d2 (List.zipWith
    (fun u t => List.zipWith (fun c d => c - d) u t) rows rrows))
  have hwrap := wrapObj_d2 _ _ _ hga1
  have hga2 := Heap.get_alloc (h.alloc (.d2 (List.zipWith
    (fun u t => List.zipWith (fun c d => c - d) u t) rows rrows))).1
    (.d2 ((List.zipWith
      (fun u t => List.zipWith (fun c d => c - d) u t) rows rrows).map
      (fun r => r.map wrapVal)))
  have hcid := convert_rad_identity _ _ _ hga2
  have hg3 := Heap.get_set_of_get (((h.alloc (.d2 (List.zipWith (fun u t => List.zipWith (fun c d => c - d) u t) rows rrows))).1.alloc (.d2 ((List.zipWith (fun u t => List.zipWith (fun c d => c - d) u t) rows rrows).map (fun r => r.map wrapVal)))).1.alloc (.d2 ((List.zipWith (fun u t => List.zipWith (fun c d => c - d) u t) rows rrows).map (fun r => r.map wrapVal)))).1
    (((h.alloc (.d2 (List.zipWith (fun u t => List.zipWith (fun c d => c - d) u t) rows rrows))).1.alloc (.d2 ((List.zipWith (fun u t => List.zipWith (fun c d => c - d) u t) rows rrows).map (fun r => r.map wrapVal)))).1.alloc (.d2 ((List.zipWith (fun u t => List.zipWith (fun c d => c - d) u t) rows rrows).map (fun r => r.map wrapVal)))).2
    (.d2 ((List.zipWith (fun u t => List.zipWith (fun c d => c - d) u t) rows rrows).map (fun r => r.map wrapVal))) (.d2 ((List.zipWith (fun u t => List.zipWith (fun c d => c - d) u t) rows rrows).map (fun r => r.map wrapVal)))
    (Heap.get_alloc ((h.alloc (.d2 (List.zipWith (fun u t => List.zipWith (fun c d => c - d) u t) rows rrows))).1.alloc (.d2 ((List.zipWith (fun u t => List.zipWith (fun c d => c - d) u t) rows rrows).map (fun r => r.map wrapVal)))).1 (.d2 ((List.zipWith (fun u t => List.zipWith (fun c d => c - d) u t) rows rrows).map (fun r => r.map wrapVal))))
  have hnd3 := ndimOf_of_get _ _ _ hg3
  obtain ⟨xu, xus, hxuc⟩ : ∃ u us, x.output_units = u :: us := by
    cases hxu2 : x.output_units with
    | nil => exact absurd hxu2 hxu
    | cons u us => exact ⟨u, us, rfl⟩
  have harr : plot_array sd h x (some rf) 0 =
      .ok ((((h.alloc (.d2 (List.zipWith (fun u t => List.zipWith (fun c d => c - d) u t) rows rrows))).1.alloc (.d2 ((List.zipWith (fun u t => List.zipWith (fun c d => c - d) u t) rows rrows).map (fun r => r.map wrapVal)))).1.alloc (.d2 ((List.zipWith (fun u t => List.zipWith (fun c d => c - d) u t) rows rrows).map (fun r => r.map wrapVal)))).1.set (((h.alloc (.d2 (List.zipWith (fun u t => List.zipWith (fun c d => c - d) u t) rows rrows))).1.alloc (.d2 ((List.zipWith (fun u t => List.zipWith (fun c d => c - d) u t) rows rrows).map (fun r => r.map wrapVal)))).1.alloc (.d2 ((List.zipWith (fun u t => List.zipWith (fun c d => c - d) u t) rows rrows).map (fun r => r.map wrapVal)))).2 (.d2 ((List.zipWith (fun u t => List.zipWith (fun c d => c - d) u t) rows rrows).map (fun r => r.map wrapVal))),
        ⟨0, sd.name, some x.data, .arr (((h.alloc (.d2 (List.zipWith (fun u t => List.zipWith (fun c d => c - d) u t) rows rrows))).1.alloc (.d2 ((List.zipWith (fun u t => List.zipWith (fun c d => c - d) u t) rows rrows).map (fun r => r.map wrapVal)))).1.alloc (.d2 ((List.zipWith (fun u t => List.zipWith (fun c d => c - d) u t) rows rrows).map (fun r => r.map wrapVal)))).2⟩) := by
    unfold plot_array
    rw [resolveX_nondict x hxnd]
    try dsimp only
    rw [hd, hr, hu, hou]
    try dsimp only
    unfold refAdjust
    rw [hsub]
    try dsimp only
    rw [if_pos rfl, hwrap]
    try dsimp only
    rw [hcid]
    try dsimp only
    unfold dispatchPlot
    rw [if_neg (by decide : ¬ ((0 : Nat) = 1)),
      if_neg (by decide : ¬ ((0 : Nat) = 2)), hxuc]
    try dsimp only
    apply pif_some_d2
    rw [ndimOf_of_get _ _ _ hg3]
    rfl
  refine ⟨(((h.alloc (.d2 (List.zipWith (fun u t => List.zipWith (fun c d => c - d) u t) rows rrows))).1.alloc (.d2 ((List.zipWith (fun u t => List.zipWith (fun c d => c - d) u t) rows rrows).map (fun r => r.map wrapVal)))).1.alloc (.d2 ((List.zipWith (fun u t => List.zipWith (fun c d => c - d) u t) rows rrows).map (fun r => r.map wrapVal)))).1.set (((h.alloc (.d2 (List.zipWith (fun u t => List.zipWith (fun c d => c - d) u t) rows rrows))).1.alloc (.d2 ((List.zipWith (fun u t => List.zipWith (fun c d => c - d) u t) rows rrows).map (fun r => r.map wrapVal)))).1.alloc (.d2 ((List.zipWith (fun u t => List.zipWith (fun c d => c - d) u t) rows rrows).map (fun r => r.map wrapVal)))).2 (.d2 ((List.zipWith (fun u t => List.zipWith (fun c d => c - d) u t) rows rrows).map (fun r => r.map wrapVal))),
    ⟨0, sd.name, some x.data, .arr (((h.alloc (.d2 (List.zipWith (fun u t => List.zipWith (fun c d => c - d) u t) rows rrows))).1.alloc (.d2 ((List.zipWith (fun u t => List.zipWith (fun c d => c - d) u t) rows rrows).map (fun r => r.map wrapVal)))).1.alloc (.d2 ((List.zipWith (fun u t => List.zipWith (fun c d => c - d) u t) rows rrows).map (fun r => r.map wrapVal)))).2⟩, ?_, ((List.zipWith (fun u t => List.zipWith (fun c d => c - d) u t) rows rrows).map (fun r => r.map wrapVal)), ?_, ?_, ?_⟩
  · simp only [plot, hp, hd, if_true]
    rw [harr]
  · exact resolve_arr _ _ _ hg3
  · exact map_map_zipWith_q (fun c d => c - d) wrapVal rows rrows
  · intro r hrm e he
    rw [map_map_zipWith_q (fun c d => c - d) wrapVal rows rrows] at hrm
    obtain ⟨u, v, heq⟩ :=
      mem_zipWith2_imp_q (fun u v => wrapVal (u - v)) rows rrows r hrm e he
    rw [heq]
    exact wrapVal_bounds (u - v)

/-- Radian dataset holding one sample `[3, 3, 3]`. -/
def sdRadW : SimData :=
  { name := "att", description := "", units := ["rad", "rad", "rad"],
    output_units := ["rad", "rad", "rad"], plottable := true, logx := false,
    logy := false, grid := "on", legend := none, data := .arr 0 }

/-- Reference dataset holding one sample `[-3, -3, -3]`. -/
def rfRadW : SimData :=
  { name := "ref", description := "", units := ["rad", "rad", "rad"],
    output_units := ["rad", "rad", "rad"], plottable := true, logx := false,
    logy := false, grid := "on", legend := none, data := .arr 1 }

/-- X-axis dataset for the wraparound witness. -/
def xRadW : SimData :=
  { name := "t", description := "", units := ["s"], output_units := ["s"],
    plottable := true, logx := false, logy := false, grid := "on",
    legend := none, data := .arr 2 }

/-- Heap for the wraparound witness. -/
def hRadW : Heap :=
  ⟨[(0, .d2 [[3, 3, 3]]), (1, .d2 [[-3, -3, -3]]), (2, .d1 [0])], 3⟩

/-- Witness for C4 at concrete inputs: the plotted difference of `3.0`
against reference `-3.0` wraps to `6 - 2*pi` in `(-pi, pi]` instead of
remaining `6.0`. -/
theorem plot_rad_wrap_c4_witness :
    (∃ h2 c, plot sdRadW hRadW xRadW none (some rfRadW) 0 = .ok (h2, [c]) ∧
      ∃ wrows, resolve h2 c.y = some (.arr (.d2 wrows)) ∧
        wrows = List.zipWith (fun r s =>
          List.zipWith (fun u v => wrapVal (u - v)) r s)
          [[3, 3, 3]] [[-3, -3, -3]] ∧
        ∀ r ∈ wrows, ∀ e ∈ r, -piQ < e ∧ e ≤ piQ) ∧
    wrapVal (3 - (-3)) = 6 - TWO_PI ∧ (6 - TWO_PI : ℚ) ≠ 6 := by
  have hfl : ⌊(6 : ℚ) / TWO_PI⌋ = 0 := by norm_num [TWO_PI, piQ]
  have hm : qmod 6 TWO_PI = 6 := by
    unfold qmod
    rw [hfl]
    norm_num
  have hgt : qmod 6 TWO_PI > piQ := by
    rw [hm]
    norm_num [piQ]
  refine ⟨plot_rad_wrap_c4 sdRadW xRadW rfRadW hRadW 0 1 [[3, 3, 3]]
    [[-3, -3, -3]] none rfl rfl rfl rfl rfl rfl rfl ⟨rfl, rfl⟩ rfl
    (by decide), ?_, ?_⟩
  · have h6 : (3 : ℚ) - (-3) = 6 := by norm_num
    rw [h6]
    have hw : wrapVal 6 =
        if qmod 6 TWO_PI > piQ then qmod 6 TWO_PI - TWO_PI
        else qmod 6 TWO_PI := rfl
    rw [hw, if_pos hgt, hm]
  · norm_num [TWO_PI, piQ]

/-! ### Key selection in `plot` -/

theorem dispatchPlot_title (h : Heap) (xd : Option PyObj) (y : PyObj)
    (x : SimData) (title : String) (p3 : Nat) (h2 : Heap) (c : FigCall)
    (hok : dispatchPlot h xd y x title p3 = .ok (h2, c)) : c.title = title := by
  unfold dispatchPlot plot3d_in_one_figure plot3d_proj_in_one_figure
    plot_in_one_figure at hok
  repeat' split at hok
  all_goals
    first
      | (rcases hok with ⟨heq1, heq2⟩
         subst heq2
         rfl)
      | (injection hok with hh
         injection hh with hh1 hh2
         rw [← hh2])
      | simp_all

theorem plotDictStep_title (sd x : SimData) (ref : Option SimData) (p3 : Nat)
    (h : Heap) (i : Nat) (h1 : Heap) (c : FigCall)
    (hok : plotDictStep sd x ref p3 h i = .ok (h1, c)) :
    c.title = sd.name ++ "_" ++ toString i := by
  unfold plotDictStep at hok
  repeat' split at hok
  all_goals try exact dispatchPlot_title _ _ _ _ _ _ _ _ hok
  all_goals simp_all

theorem plotDictLoop_titles (sd x : SimData) (ref : Option SimData) (p3 : Nat) :
    ∀ (ks : List Nat) (h h2 : Heap) (cs : List FigCall),
      plotDictLoop sd x ref p3 h ks = .ok (h2, cs) →
      cs.map (fun c => c.title) = ks.map (fun i => sd.name ++ "_" ++ toString i)
  | [], h, h2, cs, hok => by
    simp only [plotDictLoop] at hok
    injection hok with h1
    injection h1 with _ h2x
    rw [← h2x]
    rfl
  | i :: ks, h, h2, cs, hok => by
    simp only [plotDictLoop] at hok
    cases hs : plotDictStep sd x ref p3 h i with
    | error e => rw [hs] at hok; simp at hok
    | ok p =>
      rw [hs] at hok
      obtain ⟨h1, c⟩ := p
      dsimp only at hok
      cases hl : plotDictLoop sd x ref p3 h1 ks with
      | error e => rw [hl] at hok; simp at hok
      | ok q =>
        rw [hl] at hok
        obtain ⟨h3, cs1⟩ := q
        dsimp only at hok
        injection hok with h4
        injection h4 with _ h5
        rw [← h5]
        simp only [List.map_cons]
        rw [plotDictLoop_titles sd x ref p3 ks h1 h3 cs1 hl,
          plotDictStep_title sd x ref p3 h i h1 c hs]

/-- C10: on a plottable dataset whose payload is a non-empty keyed
mapping, calling `plot` with the default `key=None` raises a `TypeError`
from iterating over `None` instead of plotting anything; only the explicit
empty-list sentinel `key=[]` selects every key of the mapping — it behaves
exactly like passing the full key list, and on success produces one figure
per key, titled `name_key` in insertion order. -/
theorem plot_default_key_c10 (sd x : SimData) (h : Heap) (ref : Option SimData)
    (p3 : Nat) (es : List (Nat × PyObj))
    (hp : sd.plottable = true) (hd : sd.data = .dict es) (hne : es ≠ []) :
    plot sd h x none ref p3 =
      .error (.typeError "NoneType object is not iterable") ∧
    plot sd h x (some []) ref p3 =
      plot sd h x (some (es.map (fun p => p.1))) ref p3 ∧
    (∀ h2 cs, plot sd h x (some []) ref p3 = .ok (h2, cs) →
      cs.map (fun c => c.title) =
        es.map (fun p => sd.name ++ "_" ++ toString p.1)) := by
  have hmapne : ¬ (some (es.map (fun p => p.1)) = some ([] : List Nat)) := by
    intro hcon
    injection hcon with hcon1
    exact hne (List.map_eq_nil_iff.mp hcon1)
  have hLHS : plot sd h x (some []) ref p3 =
      plotDictLoop sd x ref p3 h (es.map (fun p => p.1)) := by
    simp only [plot, hp, hd, if_true]
    unfold plot_dict
    rw [if_pos rfl, hd]
    rfl
  have hRHS : plot sd h x (some (es.map (fun p => p.1))) ref p3 =
      plotDictLoop sd x ref p3 h (es.map (fun p => p.1)) := by
    simp only [plot, hp, hd, if_true]
    unfold plot_dict
    rw [if_neg hmapne]
  refine ⟨?_, hLHS.trans hRHS.symm, ?_⟩
  · simp only [plot, hp, hd, if_true]
    unfold plot_dict
    rw [if_neg (by simp : ¬ ((none : Option (List Nat)) = some []))]
  · intro h2 cs hok
    rw [hLHS] at hok
    rw [plotDictLoop_titles sd x ref p3 (es.map (fun p => p.1)) h h2 cs hok,
      List.map_map]
    rfl

/-- A plottable two-key mapping dataset for the key-selection witness. -/
def sdPlotW : SimData :=
  { name := "pos", description := "", units := ["m"], output_units := ["m"],
    plottable := true, logx := false, logy := false, grid := "on",
    legend := none, data := .dict [(0, .arr 0), (1, .arr 1)] }

/-- X-axis dataset for the key-selection witness. -/
def xPlotW : SimData :=
  { name := "t", description := "", units := ["s"], output_units := ["s"],
    plottable := true, logx := false, logy := false, grid := "on",
    legend := none, data := .arr 2 }

/-- Heap for the key-selection witness. -/
def hPlotW : Heap := ⟨[(0, .d1 [1]), (1, .d1 [2]), (2, .d1 [0])], 3⟩

/-- Witness for C10 at concrete inputs: the default key raises the
`TypeError`, and the empty-list sentinel behaves as the full key list. -/
theorem plot_default_key_c10_witness :
    (plot sdPlotW hPlotW xPlotW none none 0 =
      .error (.typeError "NoneType object is not iterable")) ∧
    (plot sdPlotW hPlotW xPlotW (some []) none 0 =
      plot sdPlotW hPlotW xPlotW (some [0, 1]) none 0) := by
  constructor
  · exact (plot_default_key_c10 sdPlotW xPlotW hPlotW none 0
      [(0, .arr 0), (1, .arr 1)] rfl rfl (List.cons_ne_nil _ _)).1
  · exact (plot_default_key_c10 sdPlotW xPlotW hPlotW none 0
      [(0, .arr 0), (1, .arr 1)] rfl rfl (List.cons_ne_nil _ _)).2.1
